import Mathlib

/-!
Verification of the resume-generator program (`generate_resume.py`).

The program builds two OOXML parts (`document.xml` and `document.xml.rels`)
as element trees, serialises them, and splices them into a copy of a
template `.docx` (ZIP) archive, managing badge image entries.

This file shallowly embeds the program:
  * `Xml` models `xml.etree.ElementTree` element trees (an element carries
    its fully-qualified tag, its attribute list in insertion order, and its
    children; `Element.text` is modelled as a leading `Xml.text` child).
  * Python `dict` insertion/update is modelled by `dinsert` on association
    lists (update keeps the key's position, fresh keys are appended —
    Python 3.7+ insertion-order semantics).
  * Python's salted string hash (used for `docPr`/`cNvPr` ids) is threaded
    as an explicit parameter `pyHash : String → Int`, since its value
    depends on interpreter process state (`PYTHONHASHSEED`).
  * Python `//` and `%` on the integers appearing here agree with `Int`'s
    `/` (Euclidean = floor for positive divisor) and `%`.
  * The filesystem effects of `generate_resume` / `_replace_in_zip` are
    modelled over `FS := String → Option (List Nat)` (path ↦ file bytes),
    and a ZIP archive over `List ZEntry` (named entries in order).
-/

namespace ResumeBuilder

/-- Element tree: an element node (tag, attributes, children) or a text node. -/
inductive Xml where
  | elem (tag : String) (attrs : List (String × String)) (children : List Xml)
  | text (s : String)
deriving Repr, Inhabited

-- ---------------------------------------------------------------------------
-- Constants (from the source file's constant section)
-- ---------------------------------------------------------------------------

/-- OOXML namespace URIs actually used by the emitted markup (subset of `NS`). -/
def NS_w : String := "http://schemas.openxmlformats.org/wordprocessingml/2006/main"

def NS_w14 : String := "http://schemas.microsoft.com/office/word/2010/wordml"

def NS_r : String := "http://schemas.openxmlformats.org/officeDocument/2006/relationships"

def NS_wp : String := "http://schemas.openxmlformats.org/drawingml/2006/wordprocessingDrawing"

def NS_wp14 : String := "http://schemas.microsoft.com/office/word/2010/wordprocessingDrawing"

def NS_a : String := "http://schemas.openxmlformats.org/drawingml/2006/main"

def NS_a14 : String := "http://schemas.microsoft.com/office/drawing/2010/main"

def NS_pic : String := "http://schemas.openxmlformats.org/drawingml/2006/picture"

def NS_mc : String := "http://schemas.openxmlformats.org/markup-compatibility/2006"

/-- `w(tag)`: qualified tag in the `w:` namespace (ElementTree `{uri}tag` form). -/
def w (tag : String) : String := "\x7b" ++ NS_w ++ "\x7d" ++ tag

def w14 (tag : String) : String := "\x7b" ++ NS_w14 ++ "\x7d" ++ tag

def r_ns (tag : String) : String := "\x7b" ++ NS_r ++ "\x7d" ++ tag

def wp (tag : String) : String := "\x7b" ++ NS_wp ++ "\x7d" ++ tag

def wp14 (tag : String) : String := "\x7b" ++ NS_wp14 ++ "\x7d" ++ tag

def a (tag : String) : String := "\x7b" ++ NS_a ++ "\x7d" ++ tag

def a14 (tag : String) : String := "\x7b" ++ NS_a14 ++ "\x7d" ++ tag

def pic (tag : String) : String := "\x7b" ++ NS_pic ++ "\x7d" ++ tag

def mc (tag : String) : String := "\x7b" ++ NS_mc ++ "\x7d" ++ tag

/-- One badge registry record: (filename, cx_emu, cy_emu, description). -/
structure BadgeInfo where
  filename : String
  cx : Int
  cy : Int
  descr : String
deriving Repr, DecidableEq

/-- `BADGE_REGISTRY`: key -> (filename, cx_emu, cy_emu, description). -/
def BADGE_REGISTRY : List (String × BadgeInfo) :=
  [ ("csm", ⟨"csm.png", 962025, 838200, "Scrum Alliance CSM Certified"⟩),
    ("ts_sci", ⟨"ts_sci.png", 723900, 781050, "TS/SCI Clearance"⟩),
    ("aws_cloud_practitioner",
      ⟨"aws_cloud_practitioner.png", 795478, 795478, "AWS Cloud Practitioner"⟩),
    ("security_plus", ⟨"security_plus.png", 822960, 822960, "CompTIA Security+ Certified"⟩) ]

/-- `key in BADGE_REGISTRY` (Python dict membership test). -/
def inRegistry (key : String) : Bool := (BADGE_REGISTRY.lookup key).isSome

/-- `BADGE_POSITIONS_4`: badge horizontal positions for 4 badges (template EMU). -/
def BADGE_POSITIONS_4 : List (String × Int × Int) :=
  [ ("aws_cloud_practitioner", (3219450, 76200)),
    ("security_plus", (4076700, 57150)),
    ("csm", (4905375, 57150)),
    ("ts_sci", (5848350, 95250)) ]

def BADGE_AREA_LEFT : Int := 3219450

def BADGE_AREA_RIGHT : Int := 6572250

def BADGE_AREA_CENTER : Int := (BADGE_AREA_LEFT + BADGE_AREA_RIGHT) / 2

def BADGE_VERTICAL_DEFAULT : Int := 57150

/-- Relationship IDs: badges start at rId11 in the template. -/
def BADGE_RID_START : Nat := 11

/-- Header/footer relationship IDs (fixed from template), in dict insertion order. -/
def HEADER_FOOTER_RELS : List (String × String × String) :=
  [ ("rId15", ("header", "header1.xml")),
    ("rId16", ("header", "header2.xml")),
    ("rId17", ("footer", "footer1.xml")),
    ("rId18", ("footer", "footer2.xml")),
    ("rId19", ("header", "header3.xml")),
    ("rId20", ("footer", "footer3.xml")) ]

-- ---------------------------------------------------------------------------
-- Python dict on association lists
-- ---------------------------------------------------------------------------

/-- Python `d[k] = v` on an insertion-ordered association list: an existing
key is updated in place, a fresh key is appended at the end. -/
def dinsert {β : Type} (d : List (String × β)) (k : String) (v : β) : List (String × β) :=
  match d with
  | [] => [(k, v)]
  | (k', v') :: rest => if k' = k then (k, v) :: rest else (k', v') :: dinsert rest k v

-- ---------------------------------------------------------------------------
-- Input data model (the JSON fields the program reads)
-- ---------------------------------------------------------------------------

structure Education where
  degree : String
  university : String
deriving Repr, DecidableEq

/-- One entry of `data["jobs"]`. `company` is optional in the JSON. -/
structure Job where
  title : String
  dates : String
  company : Option String
  bullets : List String
deriving Repr, DecidableEq

/-- The JSON input record (`data`). `badges` defaults to `[]` when absent. -/
structure ResumeInput where
  name : String
  phone : String
  email : String
  summary : String
  education : Education
  badges : List String
  jobs : List Job
deriving Repr, DecidableEq

-- ---------------------------------------------------------------------------
-- compute_badge_positions
-- ---------------------------------------------------------------------------

/-- Loop body of the 4-badge branch of `compute_badge_positions`: a known
badge gets its template position, an unknown one the generic center. -/
def pos4Step (positions : List (String × Int × Int)) (key : String) :
    List (String × Int × Int) :=
  match BADGE_POSITIONS_4.lookup key with
  | some pos => dinsert positions key pos
  | none => dinsert positions key (BADGE_AREA_CENTER, BADGE_VERTICAL_DEFAULT)

/-- Loop body of the distribute branch of `compute_badge_positions`: a
recognized badge is placed at the running `current_x`, which advances by
the badge width plus the fixed `gap = 100000`; unrecognized keys are
skipped (and get no position). -/
def posStep (acc : List (String × Int × Int) × Int) (key : String) :
    List (String × Int × Int) × Int :=
  match BADGE_REGISTRY.lookup key with
  | some info => (dinsert acc.1 key (acc.2, BADGE_VERTICAL_DEFAULT), acc.2 + info.cx + 100000)
  | none => acc

/-- `compute_badge_positions(badge_keys)`: horizontal positions keyed by badge.

For 4 badges, the exact template positions; for other counts, distribute the
recognized badges across the badge area, centered. Returns the Python dict
as an insertion-ordered association list. -/
def compute_badge_positions (badge_keys : List String) : List (String × Int × Int) :=
  if badge_keys.length = 4 then
    badge_keys.foldl pos4Step []
  else
    let total_width : Int :=
      (badge_keys.filterMap (fun k => (BADGE_REGISTRY.lookup k).map (·.cx))).sum
    let gap : Int := 100000
    let total_span : Int :=
      if badge_keys.length > 1 then total_width + gap * ((badge_keys.length : Int) - 1)
      else total_width
    let start_x : Int := BADGE_AREA_CENTER - total_span / 2
    (badge_keys.foldl posStep ([], start_x)).1

-- ---------------------------------------------------------------------------
-- XML builder functions
-- ---------------------------------------------------------------------------

/-- `build_contact_paragraph`: centered, bold contact line. -/
def build_contact_paragraph (name phone email : String) : Xml :=
  Xml.elem (w "p") []
    [ Xml.elem (w "pPr") []
        [ Xml.elem (w "jc") [(w "val", "center")] [],
          Xml.elem (w "rPr") []
            [ Xml.elem (w "b") [] [], Xml.elem (w "bCs") [] [] ] ],
      Xml.elem (w "r") []
        [ Xml.elem (w "rPr") []
            [ Xml.elem (w "b") [] [], Xml.elem (w "bCs") [] [] ],
          Xml.elem (w "t") [] [Xml.text (name ++ " | " ++ phone ++ " | " ++ email)] ] ]

/-- `build_section_heading`: blue shaded section heading, centered, bold. -/
def build_section_heading (title : String) : Xml :=
  Xml.elem (w "p") []
    [ Xml.elem (w "pPr") []
        [ Xml.elem (w "keepNext") [] [],
          Xml.elem (w "keepLines") [] [],
          Xml.elem (w "pBdr") []
            [ Xml.elem (w "top") [(w "val", "nil")] [],
              Xml.elem (w "left") [(w "val", "nil")] [],
              Xml.elem (w "bottom") [(w "val", "nil")] [],
              Xml.elem (w "right") [(w "val", "nil")] [],
              Xml.elem (w "between") [(w "val", "nil")] [] ],
          Xml.elem (w "shd") [(w "val", "clear"), (w "color", "auto"), (w "fill", "D3E2F1")] [],
          Xml.elem (w "spacing") [(w "before", "120"), (w "after", "120")] [],
          Xml.elem (w "ind") [(w "left", "-720"), (w "right", "-720"), (w "firstLine", "864")] [],
          Xml.elem (w "jc") [(w "val", "center")] [],
          Xml.elem (w "rPr") []
            [ Xml.elem (w "b") [] [],
              Xml.elem (w "color") [(w "val", "000000")] [] ] ],
      Xml.elem (w "r") []
        [ Xml.elem (w "rPr") []
            [ Xml.elem (w "b") [] [],
              Xml.elem (w "bCs") [] [],
              Xml.elem (w "color") [(w "val", "000000"), (w "themeColor", "text1")] [] ],
          Xml.elem (w "t") [] [Xml.text title] ] ]

/-- `build_summary_paragraph`: NoSpacing style, centered, Times New Roman 11pt. -/
def build_summary_paragraph (text : String) : Xml :=
  Xml.elem (w "p") []
    [ Xml.elem (w "pPr") []
        [ Xml.elem (w "pStyle") [(w "val", "NoSpacing")] [],
          Xml.elem (w "jc") [(w "val", "center")] [] ],
      Xml.elem (w "r") []
        [ Xml.elem (w "rPr") []
            [ Xml.elem (w "rFonts")
                [ (w "ascii", "Times New Roman"), (w "eastAsia", "Times New Roman"),
                  (w "hAnsi", "Times New Roman"), (w "cs", "Times New Roman") ] [],
              Xml.elem (w "sz") [(w "val", "22")] [] ],
          Xml.elem (w "t") [] [Xml.text text] ] ]

/-- `build_badge_anchor(rid, badge_key, pos_h, pos_v)`: `wp:anchor` drawing for one
badge image. `pyHash` is the process's salted Python string hash, threaded
explicitly because `hash(badge_key)` depends on interpreter process state.
(Python raises `KeyError` for a key outside `BADGE_REGISTRY`; all call sites
guard membership first, so the default record is never reached.) -/
def build_badge_anchor (pyHash : String → Int) (rid badge_key : String)
    (pos_h pos_v : Int) : Xml :=
  let cfg := (BADGE_REGISTRY.lookup badge_key).getD ⟨"", 0, 0, ""⟩
  let docPrId : String := toString (pyHash badge_key % 2000000000)
  Xml.elem (w "drawing") []
    [ Xml.elem (wp "anchor")
        [ ("distT", "0"), ("distB", "0"), ("distL", "114300"), ("distR", "114300"),
          ("simplePos", "0"), ("relativeHeight", "251659264"),
          ("behindDoc", "0"), ("locked", "0"), ("layoutInCell", "1"),
          ("allowOverlap", "1") ]
        [ Xml.elem (wp "simplePos") [("x", "0"), ("y", "0")] [],
          Xml.elem (wp "positionH") [("relativeFrom", "column")]
            [Xml.elem (wp "posOffset") [] [Xml.text (toString pos_h)]],
          Xml.elem (wp "positionV") [("relativeFrom", "paragraph")]
            [Xml.elem (wp "posOffset") [] [Xml.text (toString pos_v)]],
          Xml.elem (wp "extent") [("cx", toString cfg.cx), ("cy", toString cfg.cy)] [],
          Xml.elem (wp "effectExtent") [("l", "0"), ("t", "0"), ("r", "0"), ("b", "0")] [],
          Xml.elem (wp "wrapNone") [] [],
          Xml.elem (wp "docPr") [("id", docPrId), ("name", "drawing"), ("descr", cfg.descr)] [],
          Xml.elem (wp "cNvGraphicFramePr") []
            [Xml.elem (a "graphicFrameLocks") [("noChangeAspect", "1")] []],
          Xml.elem (a "graphic") []
            [ Xml.elem (a "graphicData")
                [("uri", "http://schemas.openxmlformats.org/drawingml/2006/picture")]
                [ Xml.elem (pic "pic") []
                    [ Xml.elem (pic "nvPicPr") []
                        [ Xml.elem (pic "cNvPr") [("id", docPrId), ("name", "")] [],
                          Xml.elem (pic "cNvPicPr") [] [] ],
                      Xml.elem (pic "blipFill") []
                        [ Xml.elem (a "blip") [(r_ns "embed", rid)]
                            [ Xml.elem (a "extLst") []
                                [ Xml.elem (a "ext")
                                    [("uri", "\x7b28A0092B-C50C-407E-A947-70E740481C1C\x7d")]
                                    [Xml.elem (a14 "useLocalDpi") [("val", "0")] []] ] ],
                          Xml.elem (a "stretch") [] [Xml.elem (a "fillRect") [] []] ],
                      Xml.elem (pic "spPr") []
                        [ Xml.elem (a "xfrm") []
                            [ Xml.elem (a "off") [("x", "0"), ("y", "0")] [],
                              Xml.elem (a "ext")
                                [("cx", toString cfg.cx), ("cy", toString cfg.cy)] [] ],
                          Xml.elem (a "prstGeom") [("prst", "rect")]
                            [Xml.elem (a "avLst") [] []] ] ] ] ],
          Xml.elem (wp14 "sizeRelH") [("relativeFrom", "page")]
            [Xml.elem (wp14 "pctWidth") [] [Xml.text "0"]],
          Xml.elem (wp14 "sizeRelV") [("relativeFrom", "page")]
            [Xml.elem (wp14 "pctHeight") [] [Xml.text "0"]] ] ]

/-- Loop body of `build_education_paragraph`'s badge loop: keys absent from
`BADGE_REGISTRY` or from `badge_rids` are skipped (`continue`); otherwise
one `w:r` run carrying the anchored drawing is appended. -/
def eduStep (pyHash : String → Int) (badge_rids : List (String × String))
    (positions : List (String × Int × Int)) (runs : List Xml) (key : String) : List Xml :=
  if ¬ (inRegistry key) ∨ (badge_rids.lookup key).isNone then runs
  else
    let rid := (badge_rids.lookup key).getD ""
    let pos := (positions.lookup key).getD (BADGE_AREA_CENTER, BADGE_VERTICAL_DEFAULT)
    runs ++
      [ Xml.elem (w "r") []
          [ Xml.elem (w "rPr") []
              [ Xml.elem (w "noProof") [] [],
                Xml.elem (w "sz") [(w "val", "22")] [] ],
            build_badge_anchor pyHash rid key pos.1 pos.2 ] ]

/-- `build_education_paragraph`: education text + anchored badge images in one
paragraph. A badge run is emitted only for keys present in both
`BADGE_REGISTRY` and `badge_rids` (the loop `continue`s otherwise). -/
def build_education_paragraph (pyHash : String → Int) (degree university : String)
    (badge_keys : List String) (badge_rids : List (String × String)) : Xml :=
  let positions := compute_badge_positions badge_keys
  let badgeRuns : List Xml :=
    badge_keys.foldl (eduStep pyHash badge_rids positions) []
  Xml.elem (w "p") []
    ([ Xml.elem (w "pPr") []
         [Xml.elem (w "rPr") [] [Xml.elem (w "sz") [(w "val", "22")] []]] ]
     ++ badgeRuns ++
     [ Xml.elem (w "r") []
         [ Xml.elem (w "rPr") []
             [ Xml.elem (w "sz") [(w "val", "22")] [],
               Xml.elem (w "szCs") [(w "val", "22")] [] ],
           Xml.elem (w "t") [] [Xml.text degree] ],
       Xml.elem (w "r") []
         [ Xml.elem (w "rPr") [] [Xml.elem (w "sz") [(w "val", "22")] []],
           Xml.elem (w "br") [] [] ],
       Xml.elem (w "r") []
         [ Xml.elem (w "rPr") []
             [ Xml.elem (w "b") [] [],
               Xml.elem (w "bCs") [] [],
               Xml.elem (w "sz") [(w "val", "22")] [],
               Xml.elem (w "szCs") [(w "val", "22")] [] ],
           Xml.elem (w "t") [] [Xml.text university] ] ])

/-- `build_empty_paragraph(sz, bold)`: empty spacer paragraph. Python's
`if sz or bold:` test is the truthiness of the `sz` string or the flag. -/
def build_empty_paragraph (sz : String) (bold : Bool) : Xml :=
  if sz ≠ "" ∨ bold then
    Xml.elem (w "p") []
      [ Xml.elem (w "pPr") []
          [ Xml.elem (w "rPr") []
              ((if bold then [Xml.elem (w "b") [] [], Xml.elem (w "bCs") [] []] else [])
               ++ (if sz ≠ "" then [Xml.elem (w "sz") [(w "val", sz)] []] else [])) ] ]
  else Xml.elem (w "p") [] []

/-- `build_job_title_paragraph`: job title (bold) + date (non-bold); nil
paragraph borders are added exactly when `has_company` is false. -/
def build_job_title_paragraph (title dates : String) (has_company : Bool) : Xml :=
  Xml.elem (w "p") []
    [ Xml.elem (w "pPr") []
        ((if ¬ has_company then
            [ Xml.elem (w "pBdr") []
                [ Xml.elem (w "top") [(w "val", "nil")] [],
                  Xml.elem (w "left") [(w "val", "nil")] [],
                  Xml.elem (w "bottom") [(w "val", "nil")] [],
                  Xml.elem (w "right") [(w "val", "nil")] [],
                  Xml.elem (w "between") [(w "val", "nil")] [] ] ]
          else [])
         ++
         [ Xml.elem (w "rPr") []
             [ Xml.elem (w "b") [] [],
               Xml.elem (w "bCs") [] [],
               Xml.elem (w "color") [(w "val", "000000"), (w "themeColor", "text1")] [],
               Xml.elem (w "sz") [(w "val", "22")] [] ] ]),
      Xml.elem (w "r") []
        [ Xml.elem (w "rPr") []
            [ Xml.elem (w "b") [] [],
              Xml.elem (w "bCs") [] [],
              Xml.elem (w "color") [(w "val", "000000"), (w "themeColor", "text1")] [],
              Xml.elem (w "sz") [(w "val", "22")] [],
              Xml.elem (w "szCs") [(w "val", "22")] [] ],
          Xml.elem (w "t")
            [("\x7bhttp://www.w3.org/XML/1998/namespace\x7dspace", "preserve")]
            [Xml.text (title ++ " - ")] ],
      Xml.elem (w "r") []
        [ Xml.elem (w "rPr") []
            [ Xml.elem (w "color") [(w "val", "000000"), (w "themeColor", "text1")] [],
              Xml.elem (w "sz") [(w "val", "22")] [],
              Xml.elem (w "szCs") [(w "val", "22")] [] ],
          Xml.elem (w "t") [] [Xml.text dates] ] ]

/-- `build_company_paragraph`: company name paragraph. -/
def build_company_paragraph (company : String) : Xml :=
  Xml.elem (w "p") []
    [ Xml.elem (w "pPr") []
        [ Xml.elem (w "pBdr") []
            [ Xml.elem (w "top") [(w "val", "nil")] [],
              Xml.elem (w "left") [(w "val", "nil")] [],
              Xml.elem (w "bottom") [(w "val", "nil")] [],
              Xml.elem (w "right") [(w "val", "nil")] [],
              Xml.elem (w "between") [(w "val", "nil")] [] ],
          Xml.elem (w "rPr") []
            [ Xml.elem (w "color") [(w "val", "000000"), (w "themeColor", "text1")] [],
              Xml.elem (w "sz") [(w "val", "22")] [] ] ],
      Xml.elem (w "r") []
        [ Xml.elem (w "rPr") []
            [ Xml.elem (w "color") [(w "val", "000000"), (w "themeColor", "text1")] [],
              Xml.elem (w "sz") [(w "val", "22")] [],
              Xml.elem (w "szCs") [(w "val", "22")] [] ],
          Xml.elem (w "t") [] [Xml.text company] ] ]

/-- `build_bullet_paragraph`: ListParagraph with numId 62, 10pt, spacing 300. -/
def build_bullet_paragraph (text : String) : Xml :=
  Xml.elem (w "p") []
    [ Xml.elem (w "pPr") []
        [ Xml.elem (w "pStyle") [(w "val", "ListParagraph")] [],
          Xml.elem (w "numPr") []
            [ Xml.elem (w "ilvl") [(w "val", "0")] [],
              Xml.elem (w "numId") [(w "val", "62")] [] ],
          Xml.elem (w "spacing")
            [ (w "before", "240"), (w "after", "240"),
              (w "line", "300"), (w "lineRule", "auto") ] [],
          Xml.elem (w "rPr") []
            [ Xml.elem (w "sz") [(w "val", "20")] [],
              Xml.elem (w "szCs") [(w "val", "20")] [] ] ],
      Xml.elem (w "r") []
        [ Xml.elem (w "rPr") []
            [ Xml.elem (w "sz") [(w "val", "20")] [],
              Xml.elem (w "szCs") [(w "val", "20")] [] ],
          Xml.elem (w "t") [] [Xml.text text] ] ]

/-- `build_sect_pr`: section properties with header/footer references and
fixed page setup. -/
def build_sect_pr : Xml :=
  Xml.elem (w "sectPr") []
    [ Xml.elem (w "headerReference") [(w "type", "even"), (r_ns "id", "rId15")] [],
      Xml.elem (w "headerReference") [(w "type", "default"), (r_ns "id", "rId16")] [],
      Xml.elem (w "footerReference") [(w "type", "even"), (r_ns "id", "rId17")] [],
      Xml.elem (w "footerReference") [(w "type", "default"), (r_ns "id", "rId18")] [],
      Xml.elem (w "headerReference") [(w "type", "first"), (r_ns "id", "rId19")] [],
      Xml.elem (w "footerReference") [(w "type", "first"), (r_ns "id", "rId20")] [],
      Xml.elem (w "pgSz") [(w "w", "12240"), (w "h", "15840")] [],
      Xml.elem (w "pgMar")
        [ (w "top", "720"), (w "right", "720"), (w "bottom", "720"), (w "left", "720"),
          (w "header", "0"), (w "footer", "0"), (w "gutter", "0") ] [],
      Xml.elem (w "pgNumType") [(w "start", "1")] [],
      Xml.elem (w "cols") [(w "space", "720")] [],
      Xml.elem (w "docGrid") [(w "linePitch", "272")] [] ]

-- ---------------------------------------------------------------------------
-- Document assembly
-- ---------------------------------------------------------------------------

/-- `bool(job.get("company"))`: absent (`None`) and empty-string company are
both falsy; only a non-empty company string counts as present. -/
def hasCompany (job : Job) : Bool := job.company.getD "" ≠ ""

/-- Loop body of the `badge_rids` allocation in `build_document_xml`. -/
def allocStep (acc : List (String × String) × Nat) (key : String) :
    List (String × String) × Nat :=
  if inRegistry key then (dinsert acc.1 key ("rId" ++ toString acc.2), acc.2 + 1)
  else acc

/-- The `badge_rids` allocation loop of `build_document_xml`: recognized keys
get `rId11`, `rId12`, … in list order (the counter advances once per
recognized occurrence; a duplicate key overwrites its dict entry). -/
def allocBadgeRids (badge_keys : List String) : List (String × String) × Nat :=
  badge_keys.foldl allocStep ([], BADGE_RID_START)

/-- Loop body of the bullet loop inside the job loop. -/
def bulletStep (body : List Xml) (bullet : String) : List Xml :=
  body ++ [build_bullet_paragraph bullet]

/-- Loop body of `build_document_xml`'s job loop: title paragraph, company
paragraph exactly when `bool(job.get("company"))`, then every bullet. -/
def jobLoopBody (body : List Xml) (job : Job) : List Xml :=
  let has_company := hasCompany job
  let body := body ++ [build_job_title_paragraph job.title job.dates has_company]
  let body :=
    if has_company then body ++ [build_company_paragraph (job.company.getD "")]
    else body
  job.bullets.foldl bulletStep body

/-- `build_document_xml(data)`: the complete `document.xml` element tree. -/
def build_document_xml (pyHash : String → Int) (data : ResumeInput) : Xml :=
  let badge_keys := data.badges
  let badge_rids := (allocBadgeRids badge_keys).1
  let body : List Xml :=
    [ build_contact_paragraph data.name data.phone data.email,
      build_section_heading "Professional Experience Summary",
      build_summary_paragraph data.summary,
      build_section_heading "Education & Certifications",
      build_education_paragraph pyHash data.education.degree data.education.university
        badge_keys badge_rids,
      build_empty_paragraph "22" true,
      build_empty_paragraph "22" false,
      build_empty_paragraph "22" true,
      build_empty_paragraph "22" true,
      build_section_heading "Professional Experience" ]
  let body := data.jobs.foldl jobLoopBody body
  let body := body ++
    [ build_empty_paragraph "22" false,
      build_empty_paragraph "22" false,
      build_sect_pr ]
  Xml.elem (w "document")
    [(mc "Ignorable", "w14 w15 w16se w16cid w16 w16cex w16sdtdh w16sdtfl w16du wp14")]
    [Xml.elem (w "body") [] body]

/-- OPC relationships namespace. -/
def REL_NS : String := "http://schemas.openxmlformats.org/package/2006/relationships"

def relTag (t : String) : String := "\x7b" ++ REL_NS ++ "\x7d" ++ t

/-- A `<Relationship Id=… Type=… Target=…/>` element. -/
def relationshipElem (rid rtype target : String) : Xml :=
  Xml.elem (relTag "Relationship") [("Id", rid), ("Type", rtype), ("Target", target)] []

def OFFICE_REL : String := "http://schemas.openxmlformats.org/officeDocument/2006/relationships"

/-- The fixed non-badge relationships of `build_document_rels`. -/
def fixed_rels : List (String × String × String) :=
  [ ("rId1", (OFFICE_REL ++ "/customXml", "../customXml/item1.xml")),
    ("rId2", (OFFICE_REL ++ "/customXml", "../customXml/item2.xml")),
    ("rId3", (OFFICE_REL ++ "/customXml", "../customXml/item3.xml")),
    ("rId4", (OFFICE_REL ++ "/customXml", "../customXml/item4.xml")),
    ("rId5", (OFFICE_REL ++ "/numbering", "numbering.xml")),
    ("rId6", (OFFICE_REL ++ "/styles", "styles.xml")),
    ("rId7", (OFFICE_REL ++ "/settings", "settings.xml")),
    ("rId8", (OFFICE_REL ++ "/webSettings", "webSettings.xml")),
    ("rId9", (OFFICE_REL ++ "/footnotes", "footnotes.xml")),
    ("rId10", (OFFICE_REL ++ "/endnotes", "endnotes.xml")) ]

def IMAGE_REL_TYPE : String := OFFICE_REL ++ "/image"

/-- Loop body of the badge `<Relationship>` loop of `build_document_rels`. -/
def relStep (acc : List Xml × Nat) (key : String) : List Xml × Nat :=
  match BADGE_REGISTRY.lookup key with
  | some info =>
      (acc.1 ++ [relationshipElem ("rId" ++ toString acc.2) IMAGE_REL_TYPE
          ("media/" ++ info.filename)], acc.2 + 1)
  | none => acc

/-- The badge `<Relationship>` loop of `build_document_rels` (rId11+). -/
def badgeRelElems (badge_keys : List String) : List Xml × Nat :=
  badge_keys.foldl relStep ([], BADGE_RID_START)

/-- `build_document_rels(badge_keys)`: the `document.xml.rels` element tree. -/
def build_document_rels (badge_keys : List String) : Xml :=
  let hf_type (t : String) : String :=
    if t = "header" then OFFICE_REL ++ "/header" else OFFICE_REL ++ "/footer"
  Xml.elem (relTag "Relationships") []
    ((fixed_rels.map fun e => relationshipElem e.1 e.2.1 e.2.2)
     ++ (badgeRelElems badge_keys).1
     ++ (HEADER_FOOTER_RELS.map fun e => relationshipElem e.1 (hf_type e.2.1) e.2.2)
     ++ [ relationshipElem "rId21" (OFFICE_REL ++ "/fontTable") "fontTable.xml",
          relationshipElem "rId22" (OFFICE_REL ++ "/theme") "theme/theme1.xml" ])

-- ---------------------------------------------------------------------------
-- Archive splicing (_replace_in_zip) and filesystem effects (generate_resume)
-- ---------------------------------------------------------------------------

/-- Bytes of a file or archive entry. -/
abbrev Bytes := List Nat

/-- One named ZIP entry (name and uncompressed content; `writestr(item, data)`
keeps the entry's name/metadata and replaces the content). -/
structure ZEntry where
  name : String
  content : Bytes
deriving Repr, DecidableEq

/-- `zin.read(name)`: ZIP lookup by name resolves to the last entry of that
name (Python's `NameToInfo` maps each name to its last occurrence). -/
def zipRead (entries : List ZEntry) (name : String) : Bytes :=
  ((entries.filter (fun e => e.name = name)).getLast?.map (·.content)).getD []

/-- The template badge entry names removed by `_replace_in_zip`. -/
def template_badge_files : List String :=
  ["word/media/image1.png", "word/media/image2.png",
   "word/media/image3.png", "word/media/image4.png"]

/-- The archive names of the badge images appended for `badge_keys`. -/
def needed_badge_files (badge_keys : List String) : List String :=
  badge_keys.filterMap fun key =>
    (BADGE_REGISTRY.lookup key).map fun info => "word/media/" ++ info.filename

/-- Body of `_replace_in_zip`'s per-entry loop: a replaced entry keeps its
name (and metadata) with the fresh bytes, a legacy badge slot is dropped,
anything else is copied (`zin.read` resolves the entry by name). -/
def spliceEntry (template : List ZEntry) (replacements : List (String × Bytes))
    (item : ZEntry) : Option ZEntry :=
  match replacements.lookup item.name with
  | some fresh => some ⟨item.name, fresh⟩
  | none =>
      if item.name ∈ template_badge_files then none
      else some ⟨item.name, zipRead template item.name⟩

/-- The badge image entries `_replace_in_zip` appends after the template
entries (per requested registry key whose asset file exists; a missing
asset only emits a warning and skips the entry). -/
def appendedBadgeEntries (badge_keys : List String) (assets : String → Option Bytes) :
    List ZEntry :=
  badge_keys.filterMap fun key =>
    match BADGE_REGISTRY.lookup key with
    | some info =>
        (assets info.filename).map fun content =>
          ZEntry.mk ("word/media/" ++ info.filename) content
    | none => none

/-- The archive names of appended badge entries (requested, registered, and
asset-available). -/
def presentBadgeNames (badge_keys : List String) (assets : String → Option Bytes) :
    List String :=
  (appendedBadgeEntries badge_keys assets).map ZEntry.name

/-- `_replace_in_zip`'s per-entry loop plus badge appending, as a function of
the template entry list. `replacements` maps archive names to fresh bytes;
`assets` gives the badge asset files on disk. Returns the entries written
to the new archive, in order. -/
def replace_in_zip_entries (template : List ZEntry)
    (replacements : List (String × Bytes)) (badge_keys : List String)
    (assets : String → Option Bytes) : List ZEntry :=
  (template.filterMap (spliceEntry template replacements))
  ++ appendedBadgeEntries badge_keys assets

/-- A filesystem: path ↦ file bytes (`none` = no file at that path). -/
abbrev FS := (String → Option Bytes)

def fsWrite (fs : FS) (path : String) (content : Bytes) : FS :=
  fun p => if p = path then some content else fs p

def fsDelete (fs : FS) (path : String) : FS :=
  fun p => if p = path then none else fs p

/-- `shutil.copy2(src, dst)`: the destination gets the source's bytes. -/
def copy2 (fs : FS) (src dst : String) : FS :=
  fun p => if p = dst then fs src else fs p

/-- Filesystem state after `generate_resume` has loaded the input and executed
`shutil.copy2(template_path, output_path)` — the state in which
`build_document_xml` / `build_document_rels` / `_replace_in_zip` then run. -/
def generate_resume_after_copy (fs : FS) (output_path template_path : String) : FS :=
  copy2 fs template_path output_path

/-- Filesystem state after an exception escapes `_replace_in_zip` (raised
anywhere inside its `try:` — archive reading, entry substitution, or badge
appending): the handler `os.unlink`s the temporary archive and re-raises,
and `shutil.move` never runs, so the output path keeps whatever it held
when `_replace_in_zip` started. -/
def replace_in_zip_after_error (fs : FS) (tmp_path : String) : FS :=
  fsDelete fs tmp_path

/-- Filesystem state after a run of `generate_resume` in which an exception is
raised during archive splicing: input loaded, template copied over the
output path, temporary archive created and then deleted by the handler. -/
def generate_resume_after_splice_error (fs : FS)
    (output_path template_path tmp_path : String) : FS :=
  replace_in_zip_after_error
    (generate_resume_after_copy fs output_path template_path) tmp_path

/-- Filesystem state after a successful run: template copied to the output,
splicing succeeds, and `shutil.move(tmp_path, zip_path)` publishes the new
archive at the output path (the temporary path is gone). -/
def generate_resume_success (fs : FS) (output_path template_path tmp_path : String)
    (spliced : Bytes) : FS :=
  fsDelete (fsWrite (generate_resume_after_copy fs output_path template_path)
    output_path spliced) tmp_path

/-- `generate_resume` filters the requested badges once before building the
relationship manifest and splicing:
`badge_keys = [k for k in data.get("badges", []) if k in BADGE_REGISTRY]`. -/
def generate_resume_badge_keys (data : ResumeInput) : List String :=
  data.badges.filter inRegistry

-- ---------------------------------------------------------------------------
-- Observations on the produced trees
-- ---------------------------------------------------------------------------

mutual

/-- All relationship identifiers referenced by a markup tree: values of
`r:embed` (badge image blips) and `r:id` (header/footer references)
attributes, in document order. -/
def collectRefs : Xml → List String
  | .text _ => []
  | .elem _ attrs children =>
      (attrs.filterMap fun p =>
        if p.1 = r_ns "embed" ∨ p.1 = r_ns "id" then some p.2 else none)
      ++ collectRefsList children

def collectRefsList : List Xml → List String
  | [] => []
  | x :: xs => collectRefs x ++ collectRefsList xs

end

mutual

/-- Only the `r:embed` references (one per badge image anchor). -/
def collectEmbeds : Xml → List String
  | .text _ => []
  | .elem _ attrs children =>
      (attrs.filterMap fun p => if p.1 = r_ns "embed" then some p.2 else none)
      ++ collectEmbedsList children

def collectEmbedsList : List Xml → List String
  | [] => []
  | x :: xs => collectEmbeds x ++ collectEmbedsList xs

end

mutual

/-- Number of elements with a given fully-qualified tag in a tree. -/
def countTag (t : String) : Xml → Nat
  | .text _ => 0
  | .elem tag _ children =>
      (if tag = t then 1 else 0) + countTagList t children

def countTagList (t : String) : List Xml → Nat
  | [] => 0
  | x :: xs => countTag t x + countTagList t xs

end

mutual

/-- All text-node strings of a tree, in document order (distinguishes trees
that differ only in emitted numbers such as `posOffset` values). -/
def collectTexts : Xml → List String
  | .text s => [s]
  | .elem _ _ children => collectTextsList children

def collectTextsList : List Xml → List String
  | [] => []
  | x :: xs => collectTexts x ++ collectTextsList xs

end

/-- The children of a tree's root element. -/
def rootChildren : Xml → List Xml
  | .elem _ _ children => children
  | .text _ => []

/-- The body paragraph list of a `build_document_xml` result
(`<w:document>` has the single child `<w:body>`). -/
def docBody (doc : Xml) : List Xml :=
  match doc with
  | .elem _ _ [Xml.elem _ _ body] => body
  | _ => []

/-- The `Id` attribute of a `<Relationship>` element. -/
def relId (x : Xml) : String :=
  match x with
  | .elem _ attrs _ => (attrs.lookup "Id").getD ""
  | .text _ => ""

/-- The `Type` attribute of a `<Relationship>` element. -/
def relType (x : Xml) : String :=
  match x with
  | .elem _ attrs _ => (attrs.lookup "Type").getD ""
  | .text _ => ""

/-- All relationship ids declared by a manifest tree. -/
def manifestIds (rels : Xml) : List String := (rootChildren rels).map relId

/-- The ids of the image-type relationships declared by a manifest tree. -/
def manifestImageIds (rels : Xml) : List String :=
  ((rootChildren rels).filter fun c => relType c = IMAGE_REL_TYPE).map relId

mutual

/-- All values of attributes with a given (fully-qualified) name, in
document order. With name `"id"` this collects the `wp:docPr`/`pic:cNvPr`
numeric ids of badge anchors (the `r:id` attribute is the distinct
qualified name `{…}id`, not `"id"`). -/
def collectAttr (name : String) : Xml → List String
  | .text _ => []
  | .elem _ attrs children =>
      (attrs.filterMap fun p => if p.1 = name then some p.2 else none)
      ++ collectAttrList name children

def collectAttrList (name : String) : List Xml → List String
  | [] => []
  | x :: xs => collectAttr name x ++ collectAttrList name xs

end

/-- Width (`cx`) of a registered badge, 0 for unknown keys. -/
def badgeWidth (key : String) : Int := ((BADGE_REGISTRY.lookup key).map (·.cx)).getD 0

/-- Explicit form of the `current_x` walk of `compute_badge_positions`'s
distribute branch over all-recognized keys. -/
def posWalk (keys : List String) (x : Int) : List (String × Int × Int) :=
  match keys with
  | [] => []
  | k :: rest => (k, x, BADGE_VERTICAL_DEFAULT) :: posWalk rest (x + badgeWidth k + 100000)

/-- The `total_span` of the distribute branch for a non-empty key list:
total badge width plus one 100000-EMU gap between consecutive badges. -/
def spanOf (keys : List String) : Int :=
  (keys.map badgeWidth).sum + 100000 * ((keys.length : Int) - 1)

/-- Explicit form of the `badge_rids` dict built by `build_document_xml`
for a duplicate-free recognized key list: key i ↦ `rId(n0+i)`. -/
def ridAssign (keys : List String) (n0 : Nat) : List (String × String) :=
  match keys with
  | [] => []
  | k :: rest => (k, "rId" ++ toString n0) :: ridAssign rest (n0 + 1)

/-- The relationship-identifier strings `rId n0, rId (n0+1), …` (`m` of them). -/
def ridNamesL (m : Nat) (n0 : Nat) : List String :=
  match m with
  | 0 => []
  | m + 1 => ("rId" ++ toString n0) :: ridNamesL m (n0 + 1)

/-- Explicit form of the badge `<Relationship>` elements for a recognized
key list starting at id `n0`. -/
def badgeRelList (keys : List String) (n0 : Nat) : List Xml :=
  match keys with
  | [] => []
  | k :: rest =>
      relationshipElem ("rId" ++ toString n0) IMAGE_REL_TYPE
        ("media/" ++ (((BADGE_REGISTRY.lookup k).map (·.filename)).getD ""))
      :: badgeRelList rest (n0 + 1)

/-- The paragraphs emitted for one job by `build_document_xml`'s job loop:
title paragraph, company paragraph exactly when the company field is
truthy, then one bullet paragraph per bullet. -/
def jobParas (job : Job) : List Xml :=
  [build_job_title_paragraph job.title job.dates (hasCompany job)]
  ++ (if hasCompany job then [build_company_paragraph (job.company.getD "")] else [])
  ++ job.bullets.map build_bullet_paragraph

-- ---------------------------------------------------------------------------
-- Basic lemmas
-- ---------------------------------------------------------------------------

theorem lookup_cons_eq {β : Type} (k k' : String) (v' : β) (rest : List (String × β)) :
    ((k', v') :: rest).lookup k = if k = k' then some v' else rest.lookup k := by
  by_cases h : k = k'
  · simp [List.lookup, h]
  · simp [List.lookup, h, beq_false_of_ne h]

theorem dinsert_lookup {β : Type} (d : List (String × β)) (x k : String) (v : β) :
    (dinsert d x v).lookup k = if k = x then some v else d.lookup k := by
  induction d with
  | nil =>
      simp only [dinsert]
      rw [lookup_cons_eq]
  | cons p rest ih =>
      obtain ⟨k', v'⟩ := p
      simp only [dinsert]
      by_cases hk : k' = x
      · subst hk
        rw [if_pos rfl, lookup_cons_eq, lookup_cons_eq]
        by_cases hkk : k = k' <;> simp [hkk]
      · rw [if_neg hk, lookup_cons_eq, lookup_cons_eq, ih]
        by_cases hkk : k = k'
        · have hx : ¬ k = x := by rw [hkk]; exact hk
          rw [if_pos hkk, if_neg hx, if_pos hkk]
        · simp only [if_neg hkk]

theorem dinsert_fresh {β : Type} (d : List (String × β)) (x : String) (v : β)
    (h : ∀ p ∈ d, p.1 ≠ x) : dinsert d x v = d ++ [(x, v)] := by
  induction d with
  | nil => simp [dinsert]
  | cons p rest ih =>
      obtain ⟨k', v'⟩ := p
      have hne : k' ≠ x := h (k', v') (by simp)
      simp only [dinsert, if_neg hne, List.cons_append, List.cons.injEq, true_and]
      exact ih fun q hq => h q (by simp [hq])

-- ---------------------------------------------------------------------------
-- C1: failure semantics of generate_resume / _replace_in_zip
-- ---------------------------------------------------------------------------

/-- C1 counterexample. The claim says an exception raised during splicing
leaves a pre-existing file at the output path with its original contents.
Concretely: the output path initially holds bytes `[1]` and the template
holds `[2]`; after `generate_resume` fails inside `_replace_in_zip`, the
output path holds `[2]` (the template copy written by `shutil.copy2`
before splicing), not its original `[1]` — so the operation is not
all-or-nothing at the filesystem level (the temporary archive is deleted,
as claimed). -/
theorem claim1_counterexample :
    let fs0 : FS := fun p =>
      if p = "out.docx" then some [1] else if p = "tmpl.docx" then some [2] else none
    let fs1 := generate_resume_after_splice_error fs0 "out.docx" "tmpl.docx" "tmp123.docx"
    fs0 "out.docx" = some [1] ∧ fs1 "out.docx" = some [2] ∧
    fs1 "out.docx" ≠ fs0 "out.docx" ∧ fs1 "tmp123.docx" = none := by
  refine ⟨rfl, rfl, by decide, rfl⟩

/-- C1 amended: an exception raised after input loading (inside
`_replace_in_zip`'s `try:` — archive reading, entry substitution, or badge
appending) deletes the temporary archive, but the output path is left
holding a byte-for-byte copy of the template archive (written by
`shutil.copy2` before splicing), not the file previously present there;
all other paths are untouched. -/
theorem claim1_amended (fs : FS) (output_path template_path tmp_path : String)
    (hto : tmp_path ≠ output_path) :
    let fs1 := generate_resume_after_splice_error fs output_path template_path tmp_path
    fs1 output_path = fs template_path ∧
    fs1 tmp_path = none ∧
    ∀ p, p ≠ output_path → p ≠ tmp_path → fs1 p = fs p := by
  refine ⟨?_, ?_, ?_⟩
  · simp [generate_resume_after_splice_error, replace_in_zip_after_error,
      generate_resume_after_copy, fsDelete, copy2, hto.symm]
  · simp [generate_resume_after_splice_error, replace_in_zip_after_error, fsDelete]
  · intro p hpo hpt
    simp [generate_resume_after_splice_error, replace_in_zip_after_error,
      generate_resume_after_copy, fsDelete, copy2, hpo, hpt]

/-- Witness for `claim1_amended` at a concrete filesystem. -/
theorem claim1_amended_witness :
    ("tmp123.docx" : String) ≠ "out.docx" ∧
    (generate_resume_after_splice_error
      (fun p => if p = "out.docx" then some [1] else if p = "tmpl.docx" then some [2] else none)
      "out.docx" "tmpl.docx" "tmp123.docx") "out.docx" = some [2] := by
  refine ⟨by decide, ?_⟩
  have h := claim1_amended
    (fun p => if p = "out.docx" then some [1] else if p = "tmpl.docx" then some [2] else none)
    "out.docx" "tmpl.docx" "tmp123.docx" (by decide)
  exact h.1.trans rfl

-- ---------------------------------------------------------------------------
-- C3: determinism across runs
-- ---------------------------------------------------------------------------

/-- C3 (code bug): the content tree is not a function of the input alone.
`build_badge_anchor` emits `str(hash(badge_key) % 2000000000)` as the
`wp:docPr`/`pic:cNvPr` id; Python's string `hash` is salted per process
(`PYTHONHASHSEED`), modelled here by the explicit `pyHash` parameter. Two
runs whose processes hash `"csm"` to 0 and to 1 produce different
`document.xml` trees for the same input, so the archives are not
byte-identical and the identifier fields are not deterministic functions
of the input. -/
theorem claim3_code_bug :
    let d : ResumeInput :=
      { name := "A", phone := "B", email := "C", summary := "S",
        education := ⟨"D", "U"⟩, badges := ["csm"], jobs := [] }
    collectAttr "id" (build_document_xml (fun _ => 0) d) = ["0", "0"] ∧
    collectAttr "id" (build_document_xml (fun _ => 1) d) = ["1", "1"] ∧
    build_document_xml (fun _ => 0) d ≠ build_document_xml (fun _ => 1) d := by
  refine ⟨by decide, by decide, fun h => ?_⟩
  have h2 := congrArg (collectAttr "id") h
  rw [show collectAttr "id" (build_document_xml (fun _ => 0)
      { name := "A", phone := "B", email := "C", summary := "S",
        education := ⟨"D", "U"⟩, badges := ["csm"], jobs := [] }) = ["0", "0"] by decide,
    show collectAttr "id" (build_document_xml (fun _ => 1)
      { name := "A", phone := "B", email := "C", summary := "S",
        education := ⟨"D", "U"⟩, badges := ["csm"], jobs := [] }) = ["1", "1"] by decide] at h2
  exact absurd h2 (by decide)

-- ---------------------------------------------------------------------------
-- Body structure lemmas (job loop)
-- ---------------------------------------------------------------------------

theorem bulletStep_foldl (bullets : List String) (acc : List Xml) :
    bullets.foldl bulletStep acc = acc ++ bullets.map build_bullet_paragraph := by
  induction bullets generalizing acc with
  | nil => simp
  | cons b bs ih => simp [bulletStep, ih]

theorem jobLoopBody_eq (body : List Xml) (job : Job) :
    jobLoopBody body job = body ++ jobParas job := by
  simp only [jobLoopBody, jobParas, bulletStep_foldl]
  by_cases h : hasCompany job <;> simp [h]

theorem jobs_foldl_eq (jobs : List Job) (acc : List Xml) :
    jobs.foldl jobLoopBody acc = acc ++ jobs.flatMap jobParas := by
  induction jobs generalizing acc with
  | nil => simp
  | cons j js ih => simp [jobLoopBody_eq, ih]

/-- Structural form of `build_document_xml`: fixed prefix, per-job blocks in
input order, fixed suffix. -/
theorem build_document_xml_eq (pyHash : String → Int) (data : ResumeInput) :
    build_document_xml pyHash data =
      Xml.elem (w "document")
        [(mc "Ignorable", "w14 w15 w16se w16cid w16 w16cex w16sdtdh w16sdtfl w16du wp14")]
        [Xml.elem (w "body") []
          ([ build_contact_paragraph data.name data.phone data.email,
             build_section_heading "Professional Experience Summary",
             build_summary_paragraph data.summary,
             build_section_heading "Education & Certifications",
             build_education_paragraph pyHash data.education.degree data.education.university
               data.badges (allocBadgeRids data.badges).1,
             build_empty_paragraph "22" true,
             build_empty_paragraph "22" false,
             build_empty_paragraph "22" true,
             build_empty_paragraph "22" true,
             build_section_heading "Professional Experience" ]
           ++ data.jobs.flatMap jobParas
           ++ [ build_empty_paragraph "22" false, build_empty_paragraph "22" false,
                build_sect_pr ])] := by
  simp [build_document_xml, jobs_foldl_eq]

-- ---------------------------------------------------------------------------
-- C8: body assembly order
-- ---------------------------------------------------------------------------

/-- C8 (confirmed): for every input, the body of the content tree is, in
exactly this order: contact paragraph, "Professional Experience Summary"
heading, summary paragraph, "Education & Certifications" heading,
education paragraph, four spacer paragraphs, "Professional Experience"
heading, then for every job in input order the title paragraph, a company
paragraph exactly when the company field is present (truthy, cf. C10), and
one bullet paragraph per bullet in order, then two trailing spacers and
the section setup block. -/
theorem claim8_body_order (pyHash : String → Int) (data : ResumeInput) :
    docBody (build_document_xml pyHash data) =
      [ build_contact_paragraph data.name data.phone data.email,
        build_section_heading "Professional Experience Summary",
        build_summary_paragraph data.summary,
        build_section_heading "Education & Certifications",
        build_education_paragraph pyHash data.education.degree data.education.university
          data.badges (allocBadgeRids data.badges).1,
        build_empty_paragraph "22" true,
        build_empty_paragraph "22" false,
        build_empty_paragraph "22" true,
        build_empty_paragraph "22" true,
        build_section_heading "Professional Experience" ]
      ++ (data.jobs.flatMap fun job =>
            [build_job_title_paragraph job.title job.dates (hasCompany job)]
            ++ (if hasCompany job then [build_company_paragraph (job.company.getD "")] else [])
            ++ job.bullets.map build_bullet_paragraph)
      ++ [ build_empty_paragraph "22" false, build_empty_paragraph "22" false,
           build_sect_pr ] := by
  rw [build_document_xml_eq]
  rfl

-- ---------------------------------------------------------------------------
-- C10: empty-string company behaves as absent company
-- ---------------------------------------------------------------------------

/-- C10 (confirmed): a job whose `company` field is present but `""` (falsy)
is treated exactly as one without a company: the whole content tree equals
the one built with that company field removed, the job's paragraphs are
the border-suppressed title paragraph followed directly by its bullets
(no company paragraph), and that title paragraph carries the `w:pBdr`
border-suppression block. -/
theorem claim10_empty_company (pyHash : String → Int) (data : ResumeInput) (job : Job)
    (pre post : List Job) (hjobs : data.jobs = pre ++ job :: post)
    (hc : job.company = some "") :
    build_document_xml pyHash data
      = build_document_xml pyHash
          { data with jobs := pre ++ { job with company := none } :: post } ∧
    jobParas job
      = build_job_title_paragraph job.title job.dates false
          :: job.bullets.map build_bullet_paragraph ∧
    countTag (w "pBdr") (build_job_title_paragraph job.title job.dates false) = 1 := by
  have hcomp : hasCompany job = false := by
    simp [hasCompany, hc]
  have hparas : jobParas job
      = build_job_title_paragraph job.title job.dates false
          :: job.bullets.map build_bullet_paragraph := by
    simp [jobParas, hcomp]
  refine ⟨?_, hparas, rfl⟩
  rw [build_document_xml_eq, build_document_xml_eq]
  simp only [hjobs]
  have : jobParas { job with company := none } = jobParas job := by
    simp [jobParas, hasCompany, hcomp, hc]
  simp [this]

/-- Witness for `claim10_empty_company` at a concrete input. -/
theorem claim10_witness :
    let job : Job := ⟨"T", "2020", some "", ["x"]⟩
    let data : ResumeInput :=
      { name := "A", phone := "B", email := "C", summary := "S",
        education := ⟨"D", "U"⟩, badges := [], jobs := [job] }
    jobParas job
      = build_job_title_paragraph "T" "2020" false :: [build_bullet_paragraph "x"] ∧
    build_document_xml (fun _ => 0) data
      = build_document_xml (fun _ => 0)
          { data with jobs := [{ job with company := none }] } := by
  intro job data
  have h := claim10_empty_company (fun _ => 0) data job [] [] rfl rfl
  exact ⟨h.2.1, h.1⟩

-- ---------------------------------------------------------------------------
-- C9: zero badges
-- ---------------------------------------------------------------------------

/-- C9 (confirmed): with an empty badges list, the relationship manifest
declares no image-type relationship, and the education paragraph contains
no `w:drawing` element (no floating image anchor). -/
theorem claim9_zero_badges (pyHash : String → Int) (data : ResumeInput)
    (h : data.badges = []) :
    manifestImageIds (build_document_rels (generate_resume_badge_keys data)) = [] ∧
    countTag (w "drawing")
      (build_education_paragraph pyHash data.education.degree data.education.university
        data.badges (allocBadgeRids data.badges).1) = 0 := by
  rw [generate_resume_badge_keys, h]
  exact ⟨rfl, rfl⟩

/-- Witness for `claim9_zero_badges` at a concrete input. -/
theorem claim9_witness :
    manifestImageIds (build_document_rels (generate_resume_badge_keys
      { name := "A", phone := "B", email := "C", summary := "S",
        education := ⟨"D", "U"⟩, badges := [], jobs := [] })) = [] :=
  (claim9_zero_badges (fun _ => 0)
    { name := "A", phone := "B", email := "C", summary := "S",
      education := ⟨"D", "U"⟩, badges := [], jobs := [] } rfl).1

-- ---------------------------------------------------------------------------
-- C5: exactly the four known badges get the golden positions
-- ---------------------------------------------------------------------------

theorem pos4Step_eq (d : List (String × Int × Int)) (k : String) :
    pos4Step d k
      = dinsert d k ((BADGE_POSITIONS_4.lookup k).getD
          (BADGE_AREA_CENTER, BADGE_VERTICAL_DEFAULT)) := by
  cases h : BADGE_POSITIONS_4.lookup k <;> simp [pos4Step, h]

theorem pos4_foldl_lookup (keys : List String) (d : List (String × Int × Int)) (k : String) :
    (keys.foldl pos4Step d).lookup k =
      if k ∈ keys then
        some ((BADGE_POSITIONS_4.lookup k).getD (BADGE_AREA_CENTER, BADGE_VERTICAL_DEFAULT))
      else d.lookup k := by
  induction keys generalizing d with
  | nil => simp
  | cons x xs ih =>
      rw [List.foldl_cons, ih, pos4Step_eq, dinsert_lookup]
      by_cases hxs : k ∈ xs
      · simp [hxs]
      · by_cases hx : k = x
        · simp [hxs, hx]
        · simp [hxs, hx]

/-- C5 (confirmed): whenever the badges list is exactly the four known keys
(in any order), every key gets exactly its fixed hand-tuned position from
`BADGE_POSITIONS_4`, and the resulting mapping is the same for every
ordering of the four keys. -/
theorem claim5_four_badges (badge_keys : List String)
    (hperm : badge_keys.Perm ["aws_cloud_practitioner", "security_plus", "csm", "ts_sci"]) :
    (∀ k pos, (k, pos) ∈ BADGE_POSITIONS_4 →
        (compute_badge_positions badge_keys).lookup k = some pos) ∧
    (∀ k, (compute_badge_positions badge_keys).lookup k
        = (compute_badge_positions
            ["aws_cloud_practitioner", "security_plus", "csm", "ts_sci"]).lookup k) := by
  have hlen : badge_keys.length = 4 := hperm.length_eq
  constructor
  · intro k pos hk
    have hk4 : k ∈ ["aws_cloud_practitioner", "security_plus", "csm", "ts_sci"] ∧
        BADGE_POSITIONS_4.lookup k = some pos := by
      simp only [BADGE_POSITIONS_4, List.mem_cons, List.not_mem_nil, or_false,
        Prod.mk.injEq] at hk
      rcases hk with ⟨h1, h2⟩ | ⟨h1, h2⟩ | ⟨h1, h2⟩ | ⟨h1, h2⟩ <;> subst h1 <;> subst h2 <;>
        exact ⟨by decide, by decide⟩
    have hmem : k ∈ badge_keys := hperm.mem_iff.mpr hk4.1
    simp only [compute_badge_positions, hlen, if_true]
    rw [pos4_foldl_lookup, if_pos hmem, hk4.2]
    rfl
  · intro k
    simp only [compute_badge_positions, hlen, List.length_cons, List.length_nil, if_true]
    rw [pos4_foldl_lookup, pos4_foldl_lookup]
    simp [hperm.mem_iff]

/-- Witness for `claim5_four_badges` at a permuted concrete ordering. -/
theorem claim5_witness :
    (["ts_sci", "csm", "security_plus", "aws_cloud_practitioner"] : List String).Perm
      ["aws_cloud_practitioner", "security_plus", "csm", "ts_sci"] ∧
    (compute_badge_positions
      ["ts_sci", "csm", "security_plus", "aws_cloud_practitioner"]).lookup "csm"
      = some (4905375, 57150) := by
  have hp : (["ts_sci", "csm", "security_plus", "aws_cloud_practitioner"] : List String).Perm
      ["aws_cloud_practitioner", "security_plus", "csm", "ts_sci"] := by decide
  exact ⟨hp, (claim5_four_badges _ hp).1 "csm" (4905375, 57150) (by decide)⟩

-- ---------------------------------------------------------------------------
-- C6: 1–3 recognized badges, distributed and centered
-- ---------------------------------------------------------------------------

theorem registry_cases (k : String) (h : inRegistry k = true) :
    k = "csm" ∨ k = "ts_sci" ∨ k = "aws_cloud_practitioner" ∨ k = "security_plus" := by
  simp only [inRegistry, BADGE_REGISTRY, List.lookup, Option.isSome] at h
  by_cases h1 : k = "csm"
  · exact Or.inl h1
  by_cases h2 : k = "ts_sci"
  · exact Or.inr (Or.inl h2)
  by_cases h3 : k = "aws_cloud_practitioner"
  · exact Or.inr (Or.inr (Or.inl h3))
  by_cases h4 : k = "security_plus"
  · exact Or.inr (Or.inr (Or.inr h4))
  rw [beq_false_of_ne h1, beq_false_of_ne h2, beq_false_of_ne h3, beq_false_of_ne h4] at h
  simp at h

theorem posWalk_nil (x : Int) : posWalk [] x = [] := rfl

theorem posWalk_cons (k : String) (ks : List String) (x : Int) :
    posWalk (k :: ks) x
      = (k, x, BADGE_VERTICAL_DEFAULT) :: posWalk ks (x + badgeWidth k + 100000) := rfl

theorem badgeWidth_pos (k : String) (h : inRegistry k = true) : 0 < badgeWidth k := by
  rcases registry_cases k h with h1 | h1 | h1 | h1
  all_goals (subst h1; decide)

theorem posStep_reg (d : List (String × Int × Int)) (x : Int) (k : String)
    (h : inRegistry k = true) :
    posStep (d, x) k = (dinsert d k (x, BADGE_VERTICAL_DEFAULT), x + badgeWidth k + 100000) := by
  cases hl : BADGE_REGISTRY.lookup k with
  | none => simp [inRegistry, hl] at h
  | some info => simp [posStep, hl, badgeWidth]

theorem pos_foldl_walk (keys : List String) (d : List (String × Int × Int)) (x : Int)
    (hreg : ∀ k ∈ keys, inRegistry k = true)
    (hdisj : ∀ p ∈ d, p.1 ∉ keys) (hnd : keys.Nodup) :
    (keys.foldl posStep (d, x)).1 = d ++ posWalk keys x := by
  induction keys generalizing d x with
  | nil => simp [posWalk]
  | cons k ks ih =>
      rw [List.foldl_cons, posStep_reg d x k (hreg k (by simp)),
        dinsert_fresh d k _ (fun p hp he => hdisj p hp (by simp [he])),
        ih (d ++ [(k, x, BADGE_VERTICAL_DEFAULT)]) _
          (fun k' hk' => hreg k' (by simp [hk']))
          ?_ hnd.of_cons, posWalk_cons]
      · simp
      · intro p hp
        rcases List.mem_append.mp hp with hd | hk
        · exact fun hc => hdisj p hd (by simp [hc])
        · simp at hk
          rw [show p.1 = k by rw [hk]]
          exact (List.nodup_cons.mp hnd).1

theorem posWalk_map_fst (keys : List String) (x : Int) :
    (posWalk keys x).map Prod.fst = keys := by
  induction keys generalizing x with
  | nil => rfl
  | cons k ks ih => simp [posWalk, ih]

theorem posWalk_chain (keys : List String) (x : Int)
    (hreg : ∀ k ∈ keys, inRegistry k = true) :
    List.Chain' (fun p q : String × Int × Int =>
      p.2.1 < q.2.1 ∧ p.2.1 + badgeWidth p.1 + 100000 ≤ q.2.1) (posWalk keys x) := by
  induction keys generalizing x with
  | nil => simp [posWalk]
  | cons k ks ih =>
      rw [posWalk_cons, List.chain'_cons']
      refine ⟨?_, ih _ (fun k' hk' => hreg k' (by simp [hk']))⟩
      intro q hq
      cases ks with
      | nil => simp [posWalk_nil] at hq
      | cons k2 ks2 =>
          rw [posWalk_cons, List.head?_cons, Option.mem_some_iff] at hq
          subst hq
          have hw : 0 < badgeWidth k := badgeWidth_pos k (hreg k (by simp))
          refine ⟨by simp; omega, by simp⟩

theorem posWalk_getLast (keys : List String) (x : Int) (h : keys ≠ []) :
    ∃ q, (posWalk keys x).getLast? = some q ∧
      q.2.1 + badgeWidth q.1 = x + spanOf keys := by
  induction keys generalizing x with
  | nil => exact absurd rfl h
  | cons k ks ih =>
      cases ks with
      | nil =>
          refine ⟨(k, x, BADGE_VERTICAL_DEFAULT), by simp [posWalk_cons, posWalk_nil], ?_⟩
          simp [spanOf]
      | cons k2 ks2 =>
          obtain ⟨q, hq, he⟩ := ih (x + badgeWidth k + 100000) (by simp)
          refine ⟨q, ?_, ?_⟩
          · rw [posWalk_cons, posWalk_cons, List.getLast?_cons_cons, ← posWalk_cons]
            exact hq
          · rw [he]
            simp only [spanOf, List.map_cons, List.sum_cons, List.length_cons]
            push_cast
            ring

theorem filterMap_width_eq (keys : List String)
    (hreg : ∀ k ∈ keys, inRegistry k = true) :
    (keys.filterMap (fun k => (BADGE_REGISTRY.lookup k).map (·.cx))).sum
      = (keys.map badgeWidth).sum := by
  induction keys with
  | nil => rfl
  | cons k ks ih =>
      have h := hreg k (by simp)
      cases hinfo : BADGE_REGISTRY.lookup k with
      | none => rw [inRegistry, hinfo] at h; simp at h
      | some info =>
          have ihs := ih (fun k' hk' => hreg k' (by simp [hk']))
          simp [List.filterMap_cons, hinfo, badgeWidth, ihs]

theorem compute_badge_positions_walk (badge_keys : List String) (hne : badge_keys ≠ [])
    (h4 : badge_keys.length ≠ 4)
    (hreg : ∀ k ∈ badge_keys, inRegistry k = true) (hnd : badge_keys.Nodup) :
    compute_badge_positions badge_keys
      = posWalk badge_keys (BADGE_AREA_CENTER - spanOf badge_keys / 2) := by
  simp only [compute_badge_positions, if_neg h4]
  rw [pos_foldl_walk _ _ _ hreg (by simp) hnd, List.nil_append,
    filterMap_width_eq _ hreg]
  by_cases h1 : badge_keys.length > 1
  · rw [if_pos h1]
    rfl
  · have hlen1 : badge_keys.length = 1 := by
      have : badge_keys.length ≠ 0 := fun hc => hne (List.length_eq_zero.mp hc)
      omega
    rw [if_neg h1]
    simp [spanOf, hlen1]

/-- C6 (confirmed): for 1–3 distinct recognized badge keys, the computed
placements list the keys in input order, horizontal offsets are strictly
increasing with consecutive offsets at least the preceding badge's width
plus the 100000-EMU gap apart (in fact exactly: no overlap), and the
occupied horizontal span is centered on `BADGE_AREA_CENTER` (up to the
single EMU forced by integer floor division of an odd span). -/
theorem claim6_small_counts (badge_keys : List String) (hne : badge_keys ≠ [])
    (hlen : badge_keys.length ≤ 3)
    (hreg : ∀ k ∈ badge_keys, inRegistry k = true) (hnd : badge_keys.Nodup) :
    ((compute_badge_positions badge_keys).map Prod.fst = badge_keys) ∧
    List.Chain' (fun p q : String × Int × Int =>
      p.2.1 < q.2.1 ∧ p.2.1 + badgeWidth p.1 + 100000 ≤ q.2.1)
      (compute_badge_positions badge_keys) ∧
    ∃ p q, (compute_badge_positions badge_keys).head? = some p ∧
      (compute_badge_positions badge_keys).getLast? = some q ∧
      ((p.2.1 + (q.2.1 + badgeWidth q.1)) - 2 * BADGE_AREA_CENTER).natAbs ≤ 1 := by
  have h4 : badge_keys.length ≠ 4 := by omega
  rw [compute_badge_positions_walk badge_keys hne h4 hreg hnd]
  refine ⟨posWalk_map_fst _ _, posWalk_chain _ _ hreg, ?_⟩
  obtain ⟨k, ks, rfl⟩ := List.exists_cons_of_ne_nil hne
  obtain ⟨q, hq, he⟩ :=
    posWalk_getLast (k :: ks) (BADGE_AREA_CENTER - spanOf (k :: ks) / 2) (by simp)
  refine ⟨(k, BADGE_AREA_CENTER - spanOf (k :: ks) / 2, BADGE_VERTICAL_DEFAULT), q,
    rfl, hq, ?_⟩
  show (((BADGE_AREA_CENTER - spanOf (k :: ks) / 2) + (q.2.1 + badgeWidth q.1))
      - 2 * BADGE_AREA_CENTER).natAbs ≤ 1
  omega

/-- Witness for `claim6_small_counts` at the concrete pair csm, ts_sci. -/
theorem claim6_witness :
    ∃ p q, (compute_badge_positions ["csm", "ts_sci"]).head? = some p ∧
      (compute_badge_positions ["csm", "ts_sci"]).getLast? = some q ∧
      ((p.2.1 + (q.2.1 + badgeWidth q.1)) - 2 * BADGE_AREA_CENTER).natAbs ≤ 1 :=
  (claim6_small_counts ["csm", "ts_sci"] (by decide) (by decide)
    (by decide) (by decide)).2.2

-- ---------------------------------------------------------------------------
-- Reference / embed / tag-count distribution lemmas
-- ---------------------------------------------------------------------------

theorem collectRefs_elem (t : String) (attrs : List (String × String)) (children : List Xml) :
    collectRefs (Xml.elem t attrs children)
      = (attrs.filterMap fun p =>
          if p.1 = r_ns "embed" ∨ p.1 = r_ns "id" then some p.2 else none)
        ++ collectRefsList children := rfl

theorem collectRefsList_cons (x : Xml) (xs : List Xml) :
    collectRefsList (x :: xs) = collectRefs x ++ collectRefsList xs := rfl

theorem collectRefsList_nil : collectRefsList [] = [] := rfl

theorem collectEmbeds_elem (t : String) (attrs : List (String × String)) (children : List Xml) :
    collectEmbeds (Xml.elem t attrs children)
      = (attrs.filterMap fun p => if p.1 = r_ns "embed" then some p.2 else none)
        ++ collectEmbedsList children := rfl

theorem collectEmbedsList_cons (x : Xml) (xs : List Xml) :
    collectEmbedsList (x :: xs) = collectEmbeds x ++ collectEmbedsList xs := rfl

theorem collectEmbedsList_nil : collectEmbedsList [] = [] := rfl

theorem countTag_elem (t tag : String) (attrs : List (String × String)) (children : List Xml) :
    countTag t (Xml.elem tag attrs children)
      = (if tag = t then 1 else 0) + countTagList t children := rfl

theorem countTagList_cons (t : String) (x : Xml) (xs : List Xml) :
    countTagList t (x :: xs) = countTag t x + countTagList t xs := rfl

theorem countTagList_nil (t : String) : countTagList t [] = 0 := rfl

theorem collectRefsList_append (l1 l2 : List Xml) :
    collectRefsList (l1 ++ l2) = collectRefsList l1 ++ collectRefsList l2 := by
  induction l1 with
  | nil => simp [collectRefsList]
  | cons x xs ih => simp [collectRefsList, ih]

theorem collectEmbedsList_append (l1 l2 : List Xml) :
    collectEmbedsList (l1 ++ l2) = collectEmbedsList l1 ++ collectEmbedsList l2 := by
  induction l1 with
  | nil => simp [collectEmbedsList]
  | cons x xs ih => simp [collectEmbedsList, ih]

theorem countTagList_append (t : String) (l1 l2 : List Xml) :
    countTagList t (l1 ++ l2) = countTagList t l1 + countTagList t l2 := by
  induction l1 with
  | nil => simp [countTagList]
  | cons x xs ih => simp [countTagList, ih]; omega

set_option maxHeartbeats 1000000 in
theorem collectEmbeds_anchor (pyHash : String → Int) (rid key : String) (ph pv : Int) :
    collectEmbeds (build_badge_anchor pyHash rid key ph pv) = [rid] := by
  simp [build_badge_anchor, collectEmbeds, collectEmbedsList, r_ns, NS_r]

set_option maxHeartbeats 1000000 in
theorem collectRefs_anchor (pyHash : String → Int) (rid key : String) (ph pv : Int) :
    collectRefs (build_badge_anchor pyHash rid key ph pv) = [rid] := by
  simp [build_badge_anchor, collectRefs, collectRefsList, r_ns, NS_r]

set_option maxHeartbeats 1000000 in
theorem countTag_anchor (pyHash : String → Int) (rid key : String) (ph pv : Int) :
    countTag (w "drawing") (build_badge_anchor pyHash rid key ph pv) = 1 := by
  simp [build_badge_anchor, countTag, countTagList, w, NS_w, wp, NS_wp, wp14, NS_wp14,
    a, NS_a, a14, NS_a14, pic, NS_pic]

theorem eduStep_skip (pyHash : String → Int) (rids : List (String × String))
    (positions : List (String × Int × Int)) (runs : List Xml) (k : String)
    (hg : ¬ (inRegistry k) ∨ (rids.lookup k).isNone) :
    eduStep pyHash rids positions runs k = runs := by
  simp only [eduStep]
  rw [if_pos hg]

theorem eduStep_emit (pyHash : String → Int) (rids : List (String × String))
    (positions : List (String × Int × Int)) (runs : List Xml) (k : String)
    (hg : ¬ (¬ (inRegistry k) ∨ (rids.lookup k).isNone)) :
    eduStep pyHash rids positions runs k
      = runs ++
        [ Xml.elem (w "r") []
            [ Xml.elem (w "rPr") []
                [ Xml.elem (w "noProof") [] [],
                  Xml.elem (w "sz") [(w "val", "22")] [] ],
              build_badge_anchor pyHash ((rids.lookup k).getD "") k
                ((positions.lookup k).getD (BADGE_AREA_CENTER, BADGE_VERTICAL_DEFAULT)).1
                ((positions.lookup k).getD (BADGE_AREA_CENTER, BADGE_VERTICAL_DEFAULT)).2 ] ] := by
  simp only [eduStep]
  rw [if_neg hg]

theorem collectEmbeds_badge_run (pyHash : String → Int) (rid key : String) (ph pv : Int) :
    collectEmbeds
      (Xml.elem (w "r") []
        [ Xml.elem (w "rPr") []
            [ Xml.elem (w "noProof") [] [], Xml.elem (w "sz") [(w "val", "22")] [] ],
          build_badge_anchor pyHash rid key ph pv ]) = [rid] := by
  rw [collectEmbeds_elem, collectEmbedsList_cons, collectEmbedsList_cons,
    collectEmbedsList_nil, collectEmbeds_anchor]
  simp [collectEmbeds, collectEmbedsList, r_ns, NS_r, w, NS_w]

theorem collectRefs_badge_run (pyHash : String → Int) (rid key : String) (ph pv : Int) :
    collectRefs
      (Xml.elem (w "r") []
        [ Xml.elem (w "rPr") []
            [ Xml.elem (w "noProof") [] [], Xml.elem (w "sz") [(w "val", "22")] [] ],
          build_badge_anchor pyHash rid key ph pv ]) = [rid] := by
  rw [collectRefs_elem, collectRefsList_cons, collectRefsList_cons,
    collectRefsList_nil, collectRefs_anchor]
  simp [collectRefs, collectRefsList, r_ns, NS_r, w, NS_w]

theorem countTag_badge_run (pyHash : String → Int) (rid key : String) (ph pv : Int) :
    countTag (w "drawing")
      (Xml.elem (w "r") []
        [ Xml.elem (w "rPr") []
            [ Xml.elem (w "noProof") [] [], Xml.elem (w "sz") [(w "val", "22")] [] ],
          build_badge_anchor pyHash rid key ph pv ]) = 1 := by
  rw [countTag_elem, countTagList_cons, countTagList_cons, countTagList_nil,
    countTag_anchor]
  simp [countTag, countTagList, w, NS_w]

/-- The guarded rid extraction matching `build_education_paragraph`'s loop. -/
theorem eduStep_foldl_embeds (pyHash : String → Int) (rids : List (String × String))
    (positions : List (String × Int × Int)) (keys : List String) (runs0 : List Xml) :
    collectEmbedsList (keys.foldl (eduStep pyHash rids positions) runs0)
      = collectEmbedsList runs0
        ++ keys.filterMap (fun k =>
            if ¬ (inRegistry k) ∨ (rids.lookup k).isNone then none
            else some ((rids.lookup k).getD "")) := by
  induction keys generalizing runs0 with
  | nil => simp
  | cons k ks ih =>
      rw [List.foldl_cons, List.filterMap_cons]
      by_cases hg : ¬ (inRegistry k) ∨ (rids.lookup k).isNone
      · rw [eduStep_skip _ _ _ _ _ hg, ih, if_pos hg]
      · rw [eduStep_emit _ _ _ _ _ hg, ih, if_neg hg, collectEmbedsList_append]
        simp [collectEmbedsList, collectEmbeds_badge_run]

theorem eduStep_foldl_refs (pyHash : String → Int) (rids : List (String × String))
    (positions : List (String × Int × Int)) (keys : List String) (runs0 : List Xml) :
    collectRefsList (keys.foldl (eduStep pyHash rids positions) runs0)
      = collectRefsList runs0
        ++ keys.filterMap (fun k =>
            if ¬ (inRegistry k) ∨ (rids.lookup k).isNone then none
            else some ((rids.lookup k).getD "")) := by
  induction keys generalizing runs0 with
  | nil => simp
  | cons k ks ih =>
      rw [List.foldl_cons, List.filterMap_cons]
      by_cases hg : ¬ (inRegistry k) ∨ (rids.lookup k).isNone
      · rw [eduStep_skip _ _ _ _ _ hg, ih, if_pos hg]
      · rw [eduStep_emit _ _ _ _ _ hg, ih, if_neg hg, collectRefsList_append]
        simp [collectRefsList, collectRefs_badge_run]

theorem eduStep_foldl_drawings (pyHash : String → Int) (rids : List (String × String))
    (positions : List (String × Int × Int)) (keys : List String) (runs0 : List Xml) :
    countTagList (w "drawing") (keys.foldl (eduStep pyHash rids positions) runs0)
      = countTagList (w "drawing") runs0
        + (keys.filterMap (fun k =>
            if ¬ (inRegistry k) ∨ (rids.lookup k).isNone then none
            else some ((rids.lookup k).getD ""))).length := by
  induction keys generalizing runs0 with
  | nil => simp
  | cons k ks ih =>
      rw [List.foldl_cons, List.filterMap_cons]
      by_cases hg : ¬ (inRegistry k) ∨ (rids.lookup k).isNone
      · rw [eduStep_skip _ _ _ _ _ hg, ih, if_pos hg]
      · rw [eduStep_emit _ _ _ _ _ hg, ih, if_neg hg, countTagList_append]
        simp [countTagList, countTag_badge_run]
        omega

theorem collectEmbeds_education (pyHash : String → Int) (deg uni : String)
    (keys : List String) (rids : List (String × String)) :
    collectEmbeds (build_education_paragraph pyHash deg uni keys rids)
      = keys.filterMap (fun k =>
          if ¬ (inRegistry k) ∨ (rids.lookup k).isNone then none
          else some ((rids.lookup k).getD "")) := by
  simp only [build_education_paragraph]
  rw [collectEmbeds_elem, collectEmbedsList_append, collectEmbedsList_append,
    eduStep_foldl_embeds]
  simp [collectEmbedsList, collectEmbeds_elem, collectEmbeds, r_ns, NS_r, w, NS_w]

theorem collectRefs_education (pyHash : String → Int) (deg uni : String)
    (keys : List String) (rids : List (String × String)) :
    collectRefs (build_education_paragraph pyHash deg uni keys rids)
      = keys.filterMap (fun k =>
          if ¬ (inRegistry k) ∨ (rids.lookup k).isNone then none
          else some ((rids.lookup k).getD "")) := by
  simp only [build_education_paragraph]
  rw [collectRefs_elem, collectRefsList_append, collectRefsList_append,
    eduStep_foldl_refs]
  simp [collectRefsList, collectRefs_elem, collectRefs, r_ns, NS_r, w, NS_w]

theorem countTag_education (pyHash : String → Int) (deg uni : String)
    (keys : List String) (rids : List (String × String)) :
    countTag (w "drawing") (build_education_paragraph pyHash deg uni keys rids)
      = (keys.filterMap (fun k =>
          if ¬ (inRegistry k) ∨ (rids.lookup k).isNone then none
          else some ((rids.lookup k).getD ""))).length := by
  simp only [build_education_paragraph]
  rw [countTag_elem, countTagList_append, countTagList_append,
    eduStep_foldl_drawings]
  simp [countTagList, countTag_elem, countTag, w, NS_w]

-- Per-paragraph values of the extraction functions (fixed paragraphs carry
-- no relationship references, no image embeds and no drawings; the section
-- setup block references exactly the six header/footer relationship ids).

theorem refs_contact (n p e : String) : collectRefs (build_contact_paragraph n p e) = [] := rfl

theorem embeds_contact (n p e : String) :
    collectEmbeds (build_contact_paragraph n p e) = [] := rfl

theorem draw_contact (n p e : String) :
    countTag (w "drawing") (build_contact_paragraph n p e) = 0 := rfl

theorem refs_heading (t : String) : collectRefs (build_section_heading t) = [] := rfl

theorem embeds_heading (t : String) : collectEmbeds (build_section_heading t) = [] := rfl

theorem draw_heading (t : String) :
    countTag (w "drawing") (build_section_heading t) = 0 := rfl

theorem refs_summary (t : String) : collectRefs (build_summary_paragraph t) = [] := rfl

theorem embeds_summary (t : String) : collectEmbeds (build_summary_paragraph t) = [] := rfl

theorem draw_summary (t : String) :
    countTag (w "drawing") (build_summary_paragraph t) = 0 := rfl

theorem refs_empty (sz : String) (b : Bool) : collectRefs (build_empty_paragraph sz b) = [] := by
  by_cases hsz : sz ≠ "" ∨ b = true
  · rw [build_empty_paragraph, if_pos hsz]
    cases b <;> by_cases hs : sz = "" <;> simp [hs, collectRefs_elem, collectRefsList_cons,
      collectRefsList_nil, r_ns, NS_r, w, NS_w, collectRefsList_append]
  · rw [build_empty_paragraph, if_neg hsz]
    rfl

theorem embeds_empty (sz : String) (b : Bool) :
    collectEmbeds (build_empty_paragraph sz b) = [] := by
  by_cases hsz : sz ≠ "" ∨ b = true
  · rw [build_empty_paragraph, if_pos hsz]
    cases b <;> by_cases hs : sz = "" <;> simp [hs, collectEmbeds_elem, collectEmbedsList_cons,
      collectEmbedsList_nil, r_ns, NS_r, w, NS_w, collectEmbedsList_append]
  · rw [build_empty_paragraph, if_neg hsz]
    rfl

theorem draw_empty (sz : String) (b : Bool) :
    countTag (w "drawing") (build_empty_paragraph sz b) = 0 := by
  by_cases hsz : sz ≠ "" ∨ b = true
  · rw [build_empty_paragraph, if_pos hsz]
    cases b <;> by_cases hs : sz = "" <;> simp [hs, countTag_elem, countTagList_cons,
      countTagList_nil, w, NS_w, countTagList_append]
  · rw [build_empty_paragraph, if_neg hsz]
    rfl

theorem refs_company (c : String) : collectRefs (build_company_paragraph c) = [] := rfl

theorem embeds_company (c : String) : collectEmbeds (build_company_paragraph c) = [] := rfl

theorem draw_company (c : String) :
    countTag (w "drawing") (build_company_paragraph c) = 0 := rfl

theorem refs_bullet (t : String) : collectRefs (build_bullet_paragraph t) = [] := rfl

theorem embeds_bullet (t : String) : collectEmbeds (build_bullet_paragraph t) = [] := rfl

theorem draw_bullet (t : String) :
    countTag (w "drawing") (build_bullet_paragraph t) = 0 := rfl

theorem refs_title (t d : String) (b : Bool) :
    collectRefs (build_job_title_paragraph t d b) = [] := by
  cases b <;> rfl

theorem embeds_title (t d : String) (b : Bool) :
    collectEmbeds (build_job_title_paragraph t d b) = [] := by
  cases b <;> rfl

theorem draw_title (t d : String) (b : Bool) :
    countTag (w "drawing") (build_job_title_paragraph t d b) = 0 := by
  cases b <;> rfl

theorem refs_sectPr :
    collectRefs build_sect_pr = ["rId15", "rId16", "rId17", "rId18", "rId19", "rId20"] := rfl

theorem embeds_sectPr : collectEmbeds build_sect_pr = [] := rfl

theorem draw_sectPr : countTag (w "drawing") build_sect_pr = 0 := rfl

-- The job loop produces no references, embeds or drawings.

theorem refs_jobParas (job : Job) : collectRefsList (jobParas job) = [] := by
  rw [jobParas, collectRefsList_append, collectRefsList_append]
  have hb : collectRefsList (job.bullets.map build_bullet_paragraph) = [] := by
    induction job.bullets with
    | nil => rfl
    | cons x xs ih => simp [collectRefsList_cons, refs_bullet, ih]
  by_cases h : hasCompany job <;>
    simp [h, collectRefsList_cons, collectRefsList_nil, refs_title, refs_company, hb]

theorem embeds_jobParas (job : Job) : collectEmbedsList (jobParas job) = [] := by
  rw [jobParas, collectEmbedsList_append, collectEmbedsList_append]
  have hb : collectEmbedsList (job.bullets.map build_bullet_paragraph) = [] := by
    induction job.bullets with
    | nil => rfl
    | cons x xs ih => simp [collectEmbedsList_cons, embeds_bullet, ih]
  by_cases h : hasCompany job <;>
    simp [h, collectEmbedsList_cons, collectEmbedsList_nil, embeds_title, embeds_company, hb]

theorem draw_jobParas (job : Job) : countTagList (w "drawing") (jobParas job) = 0 := by
  rw [jobParas, countTagList_append, countTagList_append]
  have hb : countTagList (w "drawing") (job.bullets.map build_bullet_paragraph) = 0 := by
    induction job.bullets with
    | nil => rfl
    | cons x xs ih => simp [countTagList_cons, draw_bullet, ih]
  by_cases h : hasCompany job <;>
    simp [h, countTagList_cons, countTagList_nil, draw_title, draw_company, hb]

theorem refs_jobs (jobs : List Job) : collectRefsList (jobs.flatMap jobParas) = [] := by
  induction jobs with
  | nil => rfl
  | cons j js ih => simp [List.flatMap_cons, collectRefsList_append, refs_jobParas, ih]

theorem embeds_jobs (jobs : List Job) : collectEmbedsList (jobs.flatMap jobParas) = [] := by
  induction jobs with
  | nil => rfl
  | cons j js ih => simp [List.flatMap_cons, collectEmbedsList_append, embeds_jobParas, ih]

theorem draw_jobs (jobs : List Job) : countTagList (w "drawing") (jobs.flatMap jobParas) = 0 := by
  induction jobs with
  | nil => rfl
  | cons j js ih => simp [List.flatMap_cons, countTagList_append, draw_jobParas, ih]

-- Document-level extraction: everything reduces to the education paragraph
-- (plus the section setup block's header/footer references).

theorem collectEmbeds_document (pyHash : String → Int) (data : ResumeInput) :
    collectEmbeds (build_document_xml pyHash data)
      = collectEmbeds (build_education_paragraph pyHash data.education.degree
          data.education.university data.badges (allocBadgeRids data.badges).1) := by
  rw [build_document_xml_eq, collectEmbeds_elem, collectEmbedsList_cons, collectEmbedsList_nil,
    collectEmbeds_elem, collectEmbedsList_append, collectEmbedsList_append]
  simp [collectEmbedsList_cons, collectEmbedsList_nil, embeds_contact, embeds_heading,
    embeds_summary, embeds_empty, embeds_sectPr, embeds_jobs, r_ns, NS_r, mc, NS_mc]

theorem collectRefs_document (pyHash : String → Int) (data : ResumeInput) :
    collectRefs (build_document_xml pyHash data)
      = collectRefs (build_education_paragraph pyHash data.education.degree
          data.education.university data.badges (allocBadgeRids data.badges).1)
        ++ ["rId15", "rId16", "rId17", "rId18", "rId19", "rId20"] := by
  rw [build_document_xml_eq, collectRefs_elem, collectRefsList_cons, collectRefsList_nil,
    collectRefs_elem, collectRefsList_append, collectRefsList_append]
  simp [collectRefsList_cons, collectRefsList_nil, refs_contact, refs_heading,
    refs_summary, refs_empty, refs_sectPr, refs_jobs, r_ns, NS_r, mc, NS_mc]

theorem draw_document (pyHash : String → Int) (data : ResumeInput) :
    countTag (w "drawing") (build_document_xml pyHash data)
      = countTag (w "drawing") (build_education_paragraph pyHash data.education.degree
          data.education.university data.badges (allocBadgeRids data.badges).1) := by
  rw [build_document_xml_eq, countTag_elem, countTagList_cons, countTagList_nil,
    countTag_elem, countTagList_append, countTagList_append,
    if_neg (by decide : ¬ (w "document" = w "drawing")),
    if_neg (by decide : ¬ (w "body" = w "drawing"))]
  simp [countTagList_cons, countTagList_nil, draw_contact, draw_heading,
    draw_summary, draw_empty, draw_sectPr, draw_jobs]

-- ---------------------------------------------------------------------------
-- Relationship id allocation and manifest structure
-- ---------------------------------------------------------------------------

theorem ridAssign_nil (n0 : Nat) : ridAssign [] n0 = [] := rfl

theorem ridAssign_cons (k : String) (rest : List String) (n0 : Nat) :
    ridAssign (k :: rest) n0 = (k, "rId" ++ toString n0) :: ridAssign rest (n0 + 1) := rfl

theorem ridNamesL_zero (n0 : Nat) : ridNamesL 0 n0 = [] := rfl

theorem ridNamesL_succ (m n0 : Nat) :
    ridNamesL (m + 1) n0 = ("rId" ++ toString n0) :: ridNamesL m (n0 + 1) := rfl

theorem badgeRelList_nil (n0 : Nat) : badgeRelList [] n0 = [] := rfl

theorem badgeRelList_cons (k : String) (rest : List String) (n0 : Nat) :
    badgeRelList (k :: rest) n0
      = relationshipElem ("rId" ++ toString n0) IMAGE_REL_TYPE
          ("media/" ++ (((BADGE_REGISTRY.lookup k).map (·.filename)).getD ""))
        :: badgeRelList rest (n0 + 1) := rfl

theorem allocStep_foldl (bk : List String) (acc : List (String × String) × Nat)
    (hnd : (bk.filter inRegistry).Nodup)
    (hdisj : ∀ p ∈ acc.1, p.1 ∉ bk.filter inRegistry) :
    bk.foldl allocStep acc
      = (acc.1 ++ ridAssign (bk.filter inRegistry) acc.2,
         acc.2 + (bk.filter inRegistry).length) := by
  induction bk generalizing acc with
  | nil => simp [ridAssign_nil]
  | cons k ks ih =>
      rw [List.foldl_cons]
      by_cases hreg : inRegistry k
      · have hfil : (k :: ks).filter inRegistry = k :: ks.filter inRegistry := by
          simp [List.filter_cons, hreg]
        rw [hfil] at hnd hdisj
        rw [hfil, ridAssign_cons]
        rw [show allocStep acc k = (dinsert acc.1 k ("rId" ++ toString acc.2), acc.2 + 1) from
          by simp [allocStep, hreg]]
        rw [dinsert_fresh _ _ _ (fun p hp he => hdisj p hp (by simp [he]))]
        rw [ih (acc.1 ++ [(k, "rId" ++ toString acc.2)], acc.2 + 1) hnd.of_cons ?_]
        · simp only [List.append_assoc, List.cons_append, List.nil_append, List.length_cons,
            Prod.mk.injEq, true_and]
          omega
        · intro p hp
          rcases List.mem_append.mp hp with hd | hk
          · exact fun hc => hdisj p hd (by simp [hc])
          · simp at hk
            subst hk
            exact (List.nodup_cons.mp hnd).1
      · have hfil : (k :: ks).filter inRegistry = ks.filter inRegistry := by
          simp [List.filter_cons, hreg]
        rw [hfil] at hnd hdisj
        rw [hfil, show allocStep acc k = acc from by simp [allocStep, hreg]]
        exact ih acc hnd hdisj

theorem allocBadgeRids_eq (bk : List String) (hnd : (bk.filter inRegistry).Nodup) :
    (allocBadgeRids bk).1 = ridAssign (bk.filter inRegistry) BADGE_RID_START := by
  rw [allocBadgeRids, allocStep_foldl bk ([], BADGE_RID_START) hnd (by simp)]
  simp

theorem ridAssign_lookup_isSome (r : List String) (n0 : Nat) (k : String) (hk : k ∈ r) :
    ((ridAssign r n0).lookup k).isSome := by
  induction r generalizing n0 with
  | nil => simp at hk
  | cons x rest ih =>
      rw [ridAssign_cons, lookup_cons_eq]
      by_cases h : k = x
      · simp [h]
      · rw [if_neg h]
        exact ih (n0 + 1) (by
          rcases List.mem_cons.mp hk with h1 | h1
          · exact absurd h1 h
          · exact h1)

theorem ridAssign_lookup_map (r : List String) (n0 : Nat) (hnd : r.Nodup) :
    r.map (fun k => ((ridAssign r n0).lookup k).getD "") = ridNamesL r.length n0 := by
  induction r generalizing n0 with
  | nil => rfl
  | cons x rest ih =>
      rw [List.map_cons, ridAssign_cons, List.length_cons, ridNamesL_succ]
      congr 1
      · rw [lookup_cons_eq, if_pos rfl]
        rfl
      · have hstep : ∀ k ∈ rest,
            ((((x, "rId" ++ toString n0) :: ridAssign rest (n0 + 1)).lookup k).getD "")
              = (((ridAssign rest (n0 + 1)).lookup k).getD "") := by
          intro k hk
          rw [lookup_cons_eq,
            if_neg (show ¬ (k = x) from fun he => (List.nodup_cons.mp hnd).1 (he ▸ hk))]
        rw [List.map_congr_left hstep, ih (n0 + 1) hnd.of_cons]

theorem filterMap_guard_eq (bk : List String) (rids : List (String × String))
    (hsome : ∀ k, inRegistry k = true → k ∈ bk → ((rids.lookup k).isSome)) :
    (bk.filterMap (fun k =>
        if ¬ (inRegistry k) ∨ (rids.lookup k).isNone then none
        else some ((rids.lookup k).getD "")))
      = (bk.filter inRegistry).map (fun k => ((rids.lookup k).getD "")) := by
  induction bk with
  | nil => rfl
  | cons k ks ih =>
      rw [List.filterMap_cons, List.filter_cons]
      have ihs := ih (fun k' h1 h2 => hsome k' h1 (by simp [h2]))
      by_cases hreg : inRegistry k
      · obtain ⟨v, hv⟩ := Option.isSome_iff_exists.mp (hsome k hreg (by simp))
        simp [hreg, hv, ihs]
      · simp [hreg, ihs]

theorem filterMap_guard_filter (bk : List String) (rids : List (String × String)) :
    ((bk.filter inRegistry).filterMap (fun k =>
        if ¬ (inRegistry k) ∨ (rids.lookup k).isNone then none
        else some ((rids.lookup k).getD "")))
      = (bk.filterMap (fun k =>
          if ¬ (inRegistry k) ∨ (rids.lookup k).isNone then none
          else some ((rids.lookup k).getD ""))) := by
  induction bk with
  | nil => rfl
  | cons k ks ih =>
      rw [List.filter_cons, List.filterMap_cons]
      by_cases hreg : inRegistry k
      · rw [if_pos hreg, List.filterMap_cons, ih]
      · have hg : ¬ (inRegistry k) ∨ ((rids.lookup k).isNone) := Or.inl (by simp [hreg])
        simp only [if_neg hreg, if_pos hg, ih]

theorem allocBadgeRids_filter (bk : List String) :
    allocBadgeRids (bk.filter inRegistry) = allocBadgeRids bk := by
  rw [allocBadgeRids, allocBadgeRids]
  generalize (([], BADGE_RID_START) : List (String × String) × Nat) = acc
  induction bk generalizing acc with
  | nil => rfl
  | cons k ks ih =>
      rw [List.filter_cons]
      by_cases hreg : inRegistry k
      · rw [if_pos hreg, List.foldl_cons, List.foldl_cons]
        exact ih _
      · rw [if_neg hreg, List.foldl_cons,
          show allocStep acc k = acc from by simp [allocStep, hreg]]
        exact ih _

theorem relStep_foldl (bk : List String) (acc : List Xml × Nat) :
    bk.foldl relStep acc
      = (acc.1 ++ badgeRelList (bk.filter inRegistry) acc.2,
         acc.2 + (bk.filter inRegistry).length) := by
  induction bk generalizing acc with
  | nil => simp [badgeRelList_nil]
  | cons k ks ih =>
      rw [List.foldl_cons]
      cases hinfo : BADGE_REGISTRY.lookup k with
      | none =>
          have hreg : inRegistry k = false := by simp [inRegistry, hinfo]
          rw [show relStep acc k = acc from by simp [relStep, hinfo], ih]
          simp [List.filter_cons, hreg]
      | some info =>
          have hreg : inRegistry k = true := by simp [inRegistry, hinfo]
          rw [show relStep acc k
              = (acc.1 ++ [relationshipElem ("rId" ++ toString acc.2) IMAGE_REL_TYPE
                  ("media/" ++ info.filename)], acc.2 + 1) from by simp [relStep, hinfo], ih]
          rw [List.filter_cons, if_pos hreg, badgeRelList_cons, hinfo]
          simp only [Option.map_some, Option.getD_some, List.append_assoc, List.cons_append,
            List.nil_append, List.length_cons, Prod.mk.injEq, true_and]
          exact ⟨rfl, by omega⟩

theorem map_relId_badgeRelList (keys : List String) (n0 : Nat) :
    (badgeRelList keys n0).map relId = ridNamesL keys.length n0 := by
  induction keys generalizing n0 with
  | nil => rfl
  | cons k ks ih =>
      rw [badgeRelList_cons, List.map_cons, List.length_cons, ridNamesL_succ, ih]
      rfl

theorem relType_badgeRelList (keys : List String) (n0 : Nat) :
    ∀ x ∈ badgeRelList keys n0, relType x = IMAGE_REL_TYPE := by
  induction keys generalizing n0 with
  | nil => simp [badgeRelList_nil]
  | cons k ks ih =>
      rw [badgeRelList_cons]
      intro x hx
      rcases List.mem_cons.mp hx with h | h
      · rw [h]
        rfl
      · exact ih (n0 + 1) x h

theorem manifestIds_eq (bk : List String) :
    manifestIds (build_document_rels bk)
      = ["rId1", "rId2", "rId3", "rId4", "rId5", "rId6", "rId7", "rId8", "rId9", "rId10"]
        ++ ridNamesL (bk.filter inRegistry).length BADGE_RID_START
        ++ ["rId15", "rId16", "rId17", "rId18", "rId19", "rId20", "rId21", "rId22"] := by
  simp only [build_document_rels, manifestIds, rootChildren]
  rw [badgeRelElems, relStep_foldl]
  simp only [List.nil_append, List.map_append, map_relId_badgeRelList]
  have h1 : (List.map relId ((fixed_rels.map fun e => relationshipElem e.1 e.2.1 e.2.2)))
      = ["rId1", "rId2", "rId3", "rId4", "rId5", "rId6", "rId7", "rId8", "rId9", "rId10"] := by
    decide
  have h2 : (List.map relId (HEADER_FOOTER_RELS.map fun e =>
      relationshipElem e.1
        (if e.2.1 = "header" then OFFICE_REL ++ "/header" else OFFICE_REL ++ "/footer")
        e.2.2))
      = ["rId15", "rId16", "rId17", "rId18", "rId19", "rId20"] := by
    decide
  have h3 : (List.map relId
      [ relationshipElem "rId21" (OFFICE_REL ++ "/fontTable") "fontTable.xml",
        relationshipElem "rId22" (OFFICE_REL ++ "/theme") "theme/theme1.xml" ])
      = ["rId21", "rId22"] := by
    decide
  rw [h1, h2, h3]
  simp

theorem manifestImageIds_eq (bk : List String) :
    manifestImageIds (build_document_rels bk)
      = ridNamesL (bk.filter inRegistry).length BADGE_RID_START := by
  simp only [build_document_rels, manifestImageIds, rootChildren]
  rw [badgeRelElems, relStep_foldl]
  simp only [List.nil_append, List.filter_append, List.map_append]
  have h1 : ((fixed_rels.map fun e => relationshipElem e.1 e.2.1 e.2.2).filter
      fun c => relType c = IMAGE_REL_TYPE) = [] :=
    List.filter_eq_nil_iff.mpr (by decide)
  have h2 : ((HEADER_FOOTER_RELS.map fun e =>
      relationshipElem e.1
        (if e.2.1 = "header" then OFFICE_REL ++ "/header" else OFFICE_REL ++ "/footer")
        e.2.2).filter fun c => relType c = IMAGE_REL_TYPE) = [] :=
    List.filter_eq_nil_iff.mpr (by decide)
  have h3 : (([ relationshipElem "rId21" (OFFICE_REL ++ "/fontTable") "fontTable.xml",
        relationshipElem "rId22" (OFFICE_REL ++ "/theme") "theme/theme1.xml" ]).filter
      fun c => relType c = IMAGE_REL_TYPE) = [] :=
    List.filter_eq_nil_iff.mpr (by decide)
  have h4 : ((badgeRelList (bk.filter inRegistry) BADGE_RID_START).filter
      fun c => relType c = IMAGE_REL_TYPE) = badgeRelList (bk.filter inRegistry) BADGE_RID_START :=
    List.filter_eq_self.mpr (fun x hx => by simp [relType_badgeRelList _ _ x hx])
  rw [h1, h2, h3, h4]
  simp [map_relId_badgeRelList]

theorem recognized_length_le (bk : List String) (hnd : (bk.filter inRegistry).Nodup) :
    (bk.filter inRegistry).length ≤ 4 := by
  have hsub : bk.filter inRegistry
      ⊆ ["csm", "ts_sci", "aws_cloud_practitioner", "security_plus"] := by
    intro k hk
    rcases registry_cases k (List.mem_filter.mp hk).2 with h | h | h | h <;> simp [h]
  simpa using List.Subperm.length_le (List.subperm_of_subset hnd hsub)

-- ---------------------------------------------------------------------------
-- C2: relationship id round trip
-- ---------------------------------------------------------------------------

/-- C2 counterexample. With the duplicate badges list `["csm", "csm"]` the
rid allocation advances the counter twice while the dict keeps only the
last assignment: the manifest declares image relationships `rId11` and
`rId12`, but the content tree references `rId12` twice and `rId11` never —
an orphaned image relationship, contradicting "every badge image
Relationship … is referenced by exactly one badge anchor". -/
theorem claim2_counterexample :
    let cdata : ResumeInput :=
      { name := "A", phone := "B", email := "C", summary := "S",
        education := ⟨"D", "U"⟩, badges := ["csm", "csm"], jobs := [] }
    "rId11" ∈ manifestImageIds (build_document_rels (generate_resume_badge_keys cdata)) ∧
    (collectEmbeds (build_document_xml (fun _ => 0) cdata)).count "rId11" = 0 ∧
    (collectEmbeds (build_document_xml (fun _ => 0) cdata)).count "rId12" = 2 := by
  exact ⟨by decide, by decide, by decide⟩

/-- C2 amended (proved): for every input whose recognized badge keys are
pairwise distinct (duplicates are what break the claim), every
relationship id referenced in the content tree (badge embeds and
header/footer references) has exactly one declaration in the manifest, and
every image-type relationship in the manifest is referenced by exactly one
badge anchor. -/
theorem claim2_amended (pyHash : String → Int) (data : ResumeInput)
    (hnd : (data.badges.filter inRegistry).Nodup) :
    (∀ rid ∈ collectRefs (build_document_xml pyHash data),
        (manifestIds (build_document_rels (generate_resume_badge_keys data))).count rid = 1) ∧
    (∀ rid ∈ manifestImageIds (build_document_rels (generate_resume_badge_keys data)),
        (collectEmbeds (build_document_xml pyHash data)).count rid = 1) := by
  have hsome : ∀ k, inRegistry k = true → k ∈ data.badges →
      (((ridAssign (data.badges.filter inRegistry) BADGE_RID_START).lookup k).isSome) :=
    fun k h1 h2 => ridAssign_lookup_isSome _ _ k (List.mem_filter.mpr ⟨h2, h1⟩)
  have hembeds : collectEmbeds (build_document_xml pyHash data)
      = ridNamesL (data.badges.filter inRegistry).length BADGE_RID_START := by
    rw [collectEmbeds_document, collectEmbeds_education, allocBadgeRids_eq _ hnd,
      filterMap_guard_eq _ _ hsome, ridAssign_lookup_map _ _ hnd]
  have hrefs : collectRefs (build_document_xml pyHash data)
      = ridNamesL (data.badges.filter inRegistry).length BADGE_RID_START
        ++ ["rId15", "rId16", "rId17", "rId18", "rId19", "rId20"] := by
    rw [collectRefs_document, collectRefs_education, allocBadgeRids_eq _ hnd,
      filterMap_guard_eq _ _ hsome, ridAssign_lookup_map _ _ hnd]
  have hff : (generate_resume_badge_keys data).filter inRegistry
      = data.badges.filter inRegistry := by
    rw [generate_resume_badge_keys]
    exact List.filter_eq_self.mpr (fun a ha => (List.mem_filter.mp ha).2)
  have hids := manifestIds_eq (generate_resume_badge_keys data)
  have himg := manifestImageIds_eq (generate_resume_badge_keys data)
  rw [hff] at hids himg
  rw [hrefs, hids, himg, hembeds]
  have hm : (data.badges.filter inRegistry).length ≤ 4 := recognized_length_le _ hnd
  generalize (data.badges.filter inRegistry).length = m at hm ⊢
  interval_cases m <;> exact ⟨by decide, by decide⟩

/-- Witness for `claim2_amended` at a concrete duplicate-free input. -/
theorem claim2_witness :
    let wdata : ResumeInput :=
      { name := "A", phone := "B", email := "C", summary := "S",
        education := ⟨"D", "U"⟩, badges := ["csm", "ts_sci"], jobs := [] }
    (manifestIds (build_document_rels (generate_resume_badge_keys wdata))).count "rId11" = 1 ∧
    (collectEmbeds (build_document_xml (fun _ => 0) wdata)).count "rId12" = 1 := by
  intro wdata
  have h := claim2_amended (fun _ => 0) wdata (by decide)
  exact ⟨h.1 "rId11" (by decide), h.2 "rId12" (by decide)⟩

-- ---------------------------------------------------------------------------
-- C7: unrecognized badge keys
-- ---------------------------------------------------------------------------

/-- C7 counterexample. The unrecognized key `"bogus"` produces no anchor, but
it still counts toward `len(badge_keys)`, so `total_span` grows by one gap
and the recognized badge `"csm"` moves: with `["csm", "bogus"]` csm sits at
4364838 EMU, with `["csm"]` alone at 4414838 EMU — and the two content
trees differ. This refutes "has no effect on the computed positions of the
recognized badges". -/
theorem claim7_counterexample :
    let d : ResumeInput :=
      { name := "A", phone := "B", email := "C", summary := "S",
        education := ⟨"D", "U"⟩, badges := ["csm", "bogus"], jobs := [] }
    let dF : ResumeInput := { d with badges := d.badges.filter inRegistry }
    dF.badges = ["csm"] ∧
    (compute_badge_positions ["csm", "bogus"]).lookup "csm" = some (4364838, 57150) ∧
    (compute_badge_positions ["csm"]).lookup "csm" = some (4414838, 57150) ∧
    build_document_xml (fun _ => 0) d ≠ build_document_xml (fun _ => 0) dF := by
  refine ⟨by decide, by decide, by decide, fun h => ?_⟩
  exact absurd (congrArg collectTexts h) (by decide)

/-- C7 amended (proved): an unrecognized badge key produces no relationship
entry, no image anchor (same embedded rids and same drawing count), and no
archive entry — the manifest, the anchors' rids, the anchor count and the
appended archive entries all equal those for the input with unrecognized
keys removed. (Only the anchors' computed positions can differ, as the
counterexample shows: the unrecognized key still counts toward the badge
count used by the layout.) -/
theorem claim7_amended (pyHash : String → Int) (data : ResumeInput)
    (assets : String → Option Bytes) :
    build_document_rels (generate_resume_badge_keys data)
      = build_document_rels (generate_resume_badge_keys
          { data with badges := data.badges.filter inRegistry }) ∧
    collectEmbeds (build_document_xml pyHash data)
      = collectEmbeds (build_document_xml pyHash
          { data with badges := data.badges.filter inRegistry }) ∧
    countTag (w "drawing") (build_document_xml pyHash data)
      = countTag (w "drawing") (build_document_xml pyHash
          { data with badges := data.badges.filter inRegistry }) ∧
    appendedBadgeEntries (generate_resume_badge_keys data) assets
      = appendedBadgeEntries (generate_resume_badge_keys
          { data with badges := data.badges.filter inRegistry }) assets := by
  have hff : generate_resume_badge_keys { data with badges := data.badges.filter inRegistry }
      = generate_resume_badge_keys data := by
    simp only [generate_resume_badge_keys]
    exact List.filter_eq_self.mpr (fun a ha => (List.mem_filter.mp ha).2)
  refine ⟨by rw [hff], ?_, ?_, by rw [hff]⟩
  · rw [collectEmbeds_document, collectEmbeds_document, collectEmbeds_education,
      collectEmbeds_education]
    dsimp only
    rw [allocBadgeRids_filter]
    exact (filterMap_guard_filter _ _).symm
  · rw [draw_document, draw_document, countTag_education, countTag_education]
    dsimp only
    rw [allocBadgeRids_filter, filterMap_guard_filter]

-- ---------------------------------------------------------------------------
-- C4: archive entry names and frame condition
-- ---------------------------------------------------------------------------

theorem zipRead_nodup (template : List ZEntry) (e : ZEntry) (he : e ∈ template)
    (hnd : (template.map ZEntry.name).Nodup) : zipRead template e.name = e.content := by
  have hfil : template.filter (fun x => x.name = e.name) = [e] := by
    induction template with
    | nil => simp at he
    | cons x xs ih =>
        rw [List.map_cons, List.nodup_cons] at hnd
        rcases List.mem_cons.mp he with h | h
        · subst h
          rw [List.filter_cons, if_pos (by simp)]
          have hnil : List.filter (fun x => decide (x.name = e.name)) xs = [] :=
            List.filter_eq_nil_iff.mpr (fun a ha => by
              simp only [decide_eq_true_eq]
              exact fun hc => hnd.1 (hc ▸ List.mem_map_of_mem ZEntry.name ha))
          rw [hnil]
        · have hne : x.name ≠ e.name := fun hc => hnd.1 (hc ▸ List.mem_map_of_mem ZEntry.name h)
          rw [List.filter_cons, if_neg (by simpa using hne)]
          exact ih h hnd.2
  rw [zipRead, hfil]
  rfl

theorem spliceEntry_slot (template : List ZEntry) (doc rels : Bytes) (e : ZEntry)
    (hslot : e.name ∈ template_badge_files) :
    spliceEntry template
      [("word/document.xml", doc), ("word/_rels/document.xml.rels", rels)] e = none := by
  have hlk : (([("word/document.xml", doc), ("word/_rels/document.xml.rels", rels)] :
      List (String × Bytes)).lookup e.name) = none := by
    simp only [template_badge_files, List.mem_cons, List.not_mem_nil, or_false] at hslot
    rcases hslot with h | h | h | h <;> rw [h] <;> rfl
  simp only [spliceEntry, hlk]
  rw [if_pos hslot]

theorem spliceEntry_keep (template : List ZEntry) (repl : List (String × Bytes)) (e : ZEntry)
    (hslot : e.name ∉ template_badge_files) :
    ∃ c, spliceEntry template repl e = some ⟨e.name, c⟩ := by
  simp only [spliceEntry]
  cases hlk : repl.lookup e.name with
  | some fresh => exact ⟨fresh, rfl⟩
  | none => exact ⟨zipRead template e.name, by rw [if_neg hslot]⟩

theorem spliceEntry_name (template : List ZEntry) (repl : List (String × Bytes))
    (e e' : ZEntry) (h : spliceEntry template repl e = some e') : e'.name = e.name := by
  revert h
  simp only [spliceEntry]
  cases repl.lookup e.name with
  | some fresh =>
      intro h
      cases h
      rfl
  | none =>
      by_cases hs : e.name ∈ template_badge_files
      · rw [if_pos hs]
        intro h
        cases h
      · rw [if_neg hs]
        intro h
        cases h
        rfl

theorem copied_names (template template' : List ZEntry) (doc rels : Bytes) :
    ((template'.filterMap (spliceEntry template
        [("word/document.xml", doc), ("word/_rels/document.xml.rels", rels)])).map
      ZEntry.name)
      = (template'.map ZEntry.name).filter (fun n => ¬ (n ∈ template_badge_files)) := by
  induction template' with
  | nil => rfl
  | cons e es ih =>
      rw [List.filterMap_cons, List.map_cons, List.filter_cons]
      by_cases hslot : e.name ∈ template_badge_files
      · rw [spliceEntry_slot _ _ _ _ hslot, ih]
        simp [hslot]
      · obtain ⟨c, hc⟩ := spliceEntry_keep template _ e hslot
        rw [hc, List.map_cons, ih]
        simp [hslot]

theorem present_subset_needed (badge_keys : List String) (assets : String → Option Bytes) :
    ∀ n ∈ presentBadgeNames badge_keys assets, n ∈ needed_badge_files badge_keys := by
  intro n hn
  rw [presentBadgeNames, appendedBadgeEntries, List.map_filterMap] at hn
  rw [needed_badge_files]
  rw [List.mem_filterMap] at hn ⊢
  obtain ⟨k, hk, hsk⟩ := hn
  refine ⟨k, hk, ?_⟩
  revert hsk
  cases hinfo : BADGE_REGISTRY.lookup k with
  | none => simp
  | some info =>
      cases hassets : assets info.filename with
      | none => simp [hassets]
      | some c => simp [hassets]

/-- C4 (confirmed): for a template whose entry names are distinct and do not
already use any registry badge image name, the output entry-name set is
(template names minus the four legacy badge slots) union (one badge image
name per requested registry key whose asset exists), and every template
entry outside the two replaced names and the badge slots reappears with
byte-identical content (and is the only output entry of that name). -/
theorem claim4_archive (template : List ZEntry) (doc rels : Bytes)
    (badge_keys : List String) (assets : String → Option Bytes)
    (hnd : (template.map ZEntry.name).Nodup)
    (hdisj : ∀ n ∈ needed_badge_files badge_keys, n ∉ template.map ZEntry.name) :
    (∀ n, n ∈ (replace_in_zip_entries template
          [("word/document.xml", doc), ("word/_rels/document.xml.rels", rels)]
          badge_keys assets).map ZEntry.name
        ↔ ((n ∈ template.map ZEntry.name ∧ n ∉ template_badge_files)
           ∨ n ∈ presentBadgeNames badge_keys assets)) ∧
    (∀ e ∈ template, e.name ≠ "word/document.xml" →
        e.name ≠ "word/_rels/document.xml.rels" → e.name ∉ template_badge_files →
        (ZEntry.mk e.name e.content) ∈ replace_in_zip_entries template
            [("word/document.xml", doc), ("word/_rels/document.xml.rels", rels)]
            badge_keys assets ∧
        ∀ e' ∈ replace_in_zip_entries template
            [("word/document.xml", doc), ("word/_rels/document.xml.rels", rels)]
            badge_keys assets,
          e'.name = e.name → e'.content = e.content) := by
  constructor
  · intro n
    rw [replace_in_zip_entries, List.map_append, List.mem_append, copied_names,
      List.mem_filter]
    constructor
    · rintro (⟨h1, h2⟩ | h)
      · exact Or.inl ⟨h1, by simpa using h2⟩
      · exact Or.inr h
    · rintro (⟨h1, h2⟩ | h)
      · exact Or.inl ⟨h1, by simpa using h2⟩
      · exact Or.inr h
  · intro e he hd hr hslot
    have hlk : (([("word/document.xml", doc), ("word/_rels/document.xml.rels", rels)] :
        List (String × Bytes)).lookup e.name) = none := by
      rw [lookup_cons_eq, if_neg hd, lookup_cons_eq, if_neg hr]
      rfl
    have hstep : spliceEntry template
        [("word/document.xml", doc), ("word/_rels/document.xml.rels", rels)] e
        = some ⟨e.name, e.content⟩ := by
      simp only [spliceEntry, hlk]
      rw [if_neg hslot, zipRead_nodup template e he hnd]
    constructor
    · rw [replace_in_zip_entries, List.mem_append]
      exact Or.inl (List.mem_filterMap.mpr ⟨e, he, hstep⟩)
    · intro e' he' hname
      rw [replace_in_zip_entries, List.mem_append] at he'
      rcases he' with hcp | hap
      · obtain ⟨a, ha, hsa⟩ := List.mem_filterMap.mp hcp
        have haname : e'.name = a.name := spliceEntry_name _ _ _ _ hsa
        have hae : a = e := List.inj_on_of_nodup_map hnd ha he (by rw [← haname, hname])
        subst hae
        rw [hstep] at hsa
        cases hsa
        rfl
      · exfalso
        have hsub : e'.name ∈ needed_badge_files badge_keys :=
          present_subset_needed badge_keys assets e'.name (List.mem_map_of_mem ZEntry.name hap)
        rw [hname] at hsub
        exact hdisj e.name hsub (List.mem_map_of_mem ZEntry.name he)

/-- Witness for `claim4_archive` at a concrete template/assets pair. -/
theorem claim4_witness :
    (ZEntry.mk "a.txt" [7]) ∈ replace_in_zip_entries
        [⟨"word/document.xml", [0]⟩, ⟨"a.txt", [7]⟩, ⟨"word/media/image1.png", [9]⟩]
        [("word/document.xml", [1]), ("word/_rels/document.xml.rels", [2])]
        ["csm"] (fun n => if n = "csm.png" then some [5] else none) ∧
    ("word/media/csm.png" ∈ (replace_in_zip_entries
        [⟨"word/document.xml", [0]⟩, ⟨"a.txt", [7]⟩, ⟨"word/media/image1.png", [9]⟩]
        [("word/document.xml", [1]), ("word/_rels/document.xml.rels", [2])]
        ["csm"] (fun n => if n = "csm.png" then some [5] else none)).map ZEntry.name) := by
  have h := claim4_archive
    [⟨"word/document.xml", [0]⟩, ⟨"a.txt", [7]⟩, ⟨"word/media/image1.png", [9]⟩]
    [1] [2] ["csm"] (fun n => if n = "csm.png" then some [5] else none)
    (by decide) (by decide)
  refine ⟨(h.2 ⟨"a.txt", [7]⟩ (by decide) (by decide) (by decide) (by decide)).1, ?_⟩
  refine (h.1 "word/media/csm.png").mpr (Or.inr ?_)
  decide

end ResumeBuilder
